import Mathlib

/-!
# terraform-provider-xenserver: VM data source and network resource

A shallow embedding of `xenserver/vm_data_source.go`, `xenserver/network_resource.go`
and `xenserver/network_utils.go`.

* Terraform framework values (`types.String`, `types.Map`, diagnostics) are small
  inductive types.
* The remote control plane (XenAPI) is external to the repository.  Every handler
  takes the remote calls it issues as explicit arguments and returns the response,
  the resulting remote state and the list of remote calls it issued.
* `sort.Slice` is Go library code; `Read` takes it as an argument.  The contract of
  the library (`SortSliceContract`) is a hypothesis of the theorems, and
  `insertionSortLessFunc` is the routine that `sort.Slice` runs on short slices.
-/

namespace xenserver

/-! ## Terraform framework values -/

/-- Framework `types.String`: null, unknown, or a known value. -/
inductive TypesString where
  | null
  | unknown
  | value (s : String)
deriving DecidableEq

/-- Method `IsNull` of `types.String`. -/
def TypesString.IsNull : TypesString → Bool
  | .null => true
  | _ => false

/-- Method `ValueString` of `types.String`: the known value, or the empty string for
null and unknown. -/
def TypesString.ValueString : TypesString → String
  | .value s => s
  | _ => ""

/-- Framework `types.StringValue`. -/
def StringValue (s : String) : TypesString := .value s

/-- Go `map[string]string`, as its key/value pairs. -/
abbrev StringMap := List (String × String)

/-- Framework `types.Map` with string elements: null, unknown, or known elements. -/
inductive TypesMap where
  | null
  | unknown
  | value (elems : StringMap)
deriving DecidableEq

/-- Method `Elements` of `types.Map`: the known elements, none for null and unknown. -/
def TypesMap.Elements : TypesMap → StringMap
  | .value m => m
  | _ => []

/-- Severity of a diagnostic. -/
inductive Severity where
  | error
  | warning
deriving DecidableEq

/-- Framework `diag.Diagnostic`: severity, summary, detail. -/
structure Diagnostic where
  severity : Severity
  summary : String
  detail : String
deriving DecidableEq

/-- Framework `diag.Diagnostics`. -/
abbrev Diagnostics := List Diagnostic

/-- Method `AddError`: appends an error-level diagnostic. -/
def Diagnostics.AddError (d : Diagnostics) (summary detail : String) : Diagnostics :=
  d ++ [⟨Severity.error, summary, detail⟩]

/-- Method `HasError`: some diagnostic has error severity. -/
def Diagnostics.HasError (d : Diagnostics) : Bool :=
  d.any (fun x => decide (x.severity = Severity.error))

/-! ## Go `sort.Slice` -/

/-- Back-to-front insertion of `x` into a prefix held in reverse: the inner loop
`for j := i; j > a && less(j, j-1); j--` of Go's `insertionSortLessFunc`, which swaps
the new element leftwards while it is less than its left neighbour. -/
def insertBack {α : Type} (less : α → α → Bool) (x : α) : List α → List α
  | [] => [x]
  | y :: ys => if less x y then y :: insertBack less x ys else x :: y :: ys

/-- Go's `insertionSortLessFunc`, the routine `sort.Slice` runs on short slices:
elements are taken left to right and each is moved leftwards into the already sorted
prefix.  On two elements the slice is left as it is unless the second element is less
than the first. -/
def insertionSortLessFunc {α : Type} (less : α → α → Bool) (xs : List α) : List α :=
  (xs.foldl (fun rev x => insertBack less x rev) []).reverse

/-- A comparison function as `sort.Slice` requires it: a strict weak order. -/
structure StrictWeakOrder {α : Type} (less : α → α → Bool) : Prop where
  asymm : ∀ a b, less a b = true → less b a = false
  negTrans : ∀ a b c, less b a = false → less c b = false → less c a = false

/-- Documented contract of `sort.Slice`: for a strict weak order the result is a
rearrangement of the input in which no element is less than an earlier one.  Nothing
is promised on the relative order of elements that compare equal (the sort is not
stable). -/
def SortSliceContract {α : Type} (sortSlice : (α → α → Bool) → List α → List α) : Prop :=
  ∀ less xs, StrictWeakOrder less →
    (sortSlice less xs).Perm xs ∧ (sortSlice less xs).Pairwise (fun a b => less b a = false)

/-! ## VM data source (`vm_data_source.go`) -/

/-- XenAPI `VMRef`. -/
abbrev VMRef := String

/-- XenAPI `VMRecord`, the fields `Read` inspects and the flags the schema documents. -/
structure VMRecord where
  UUID : String
  NameLabel : String
  NameDescription : String
  IsATemplate : Bool
  IsDefaultTemplate : Bool
  IsASnapshot : Bool
  SnapshotOf : VMRef
  IsControlDomain : Bool
  Domid : Int
deriving DecidableEq

/-- One element of `data_items`, with attributes of `vmDataSchema`: `uuid`,
`name_label`, `name_description`, `is_a_template`, `is_default_template`,
`is_a_snapshot`, `is_control_domain`. -/
structure vmRecordData where
  UUID : TypesString
  NameLabel : TypesString
  NameDescription : TypesString
  IsATemplate : Bool
  IsDefaultTemplate : Bool
  IsASnapshot : Bool
  IsControlDomain : Bool
deriving DecidableEq

/-- Data source model: the two optional constraints and the computed `data_items`. -/
structure vmDataSourceModel where
  UUID : TypesString
  NameLabel : TypesString
  DataItems : List vmRecordData
deriving DecidableEq

/-- Framework `datasource.ReadResponse`: diagnostics and the state, `none` while the
state has not been set. -/
structure ReadResponse where
  Diagnostics : Diagnostics
  State : Option vmDataSourceModel
deriving DecidableEq

/-- Modelled from the spec: `updateVMRecordData` of `vm_utils.go`, which is not among
the sources.  Scalar fields are direct value copies of the remote record's fields. -/
def updateVMRecordData (vmRecord : VMRecord) : Except String vmRecordData :=
  .ok {
    UUID := StringValue vmRecord.UUID
    NameLabel := StringValue vmRecord.NameLabel
    NameDescription := StringValue vmRecord.NameDescription
    IsATemplate := vmRecord.IsATemplate
    IsDefaultTemplate := vmRecord.IsDefaultTemplate
    IsASnapshot := vmRecord.IsASnapshot
    IsControlDomain := vmRecord.IsControlDomain }

/-- The loop of `vmDataSource.Read` over the records in the order the Go map yields
them.  `conv` is the call of `updateVMRecordData`; `vmItems` is the slice built so
far.  An error of `conv` ends the loop at once. -/
def vmReadLoop (conv : VMRecord → Except String vmRecordData) (data : vmDataSourceModel) :
    List (VMRef × VMRecord) → List vmRecordData → Except String (List vmRecordData)
  | [], vmItems => .ok vmItems
  | (_, vmRecord) :: rest, vmItems =>
    if !data.NameLabel.IsNull && vmRecord.NameLabel != data.NameLabel.ValueString then
      vmReadLoop conv data rest vmItems
    else if !data.UUID.IsNull && vmRecord.UUID != data.UUID.ValueString then
      vmReadLoop conv data rest vmItems
    else if vmRecord.IsATemplate || vmRecord.IsDefaultTemplate
        || vmRecord.SnapshotOf != "OpaqueRef:NULL" || vmRecord.Domid == 0 then
      vmReadLoop conv data rest vmItems
    else
      match conv vmRecord with
      | .error err => .error err
      | .ok vmItem => vmReadLoop conv data rest (vmItems ++ [vmItem])

/-- Go's `<` on strings: lexicographic comparison, character by character. -/
def stringLess (a b : String) : Bool := decide (a.toList < b.toList)

/-- The comparison passed to `sort.Slice`: strict order of the items by UUID string. -/
def uuidLess (a b : vmRecordData) : Bool :=
  stringLess a.UUID.ValueString b.UUID.ValueString

/-- Handler `vmDataSource.Read`.  `configDiags` and `data` are the result of
`req.Config.Get`, `getAllRecords` is the result of `xenapi.VM.GetAllRecords` (the
records in the order in which the Go map is ranged over). -/
def vmDataSource.Read (getAllRecords : Except String (List (VMRef × VMRecord)))
    (conv : VMRecord → Except String vmRecordData)
    (sortSlice : (vmRecordData → vmRecordData → Bool) → List vmRecordData → List vmRecordData)
    (configDiags : Diagnostics) (data : vmDataSourceModel) (resp : ReadResponse) :
    ReadResponse :=
  let resp := { resp with Diagnostics := resp.Diagnostics ++ configDiags }
  if resp.Diagnostics.HasError then resp
  else
    match getAllRecords with
    | .error err =>
      { resp with Diagnostics := resp.Diagnostics.AddError "Unable to read VM records" err }
    | .ok vmRecords =>
      match vmReadLoop conv data vmRecords [] with
      | .error err =>
        { resp with Diagnostics := resp.Diagnostics.AddError "Unable to update VM data" err }
      | .ok vmItems =>
        let vmItems := sortSlice uuidLess vmItems
        { resp with State := some { data with DataItems := vmItems } }

/-! ## Network resource (`network_resource.go`, `network_utils.go`) -/

/-- XenAPI `NetworkRef`. -/
abbrev NetworkRef := String

/-- XenAPI `NetworkRecord`, the fields the resource reads and writes. -/
structure NetworkRecord where
  UUID : String
  NameLabel : String
  NameDescription : String
  OtherConfig : StringMap
deriving DecidableEq

/-- Resource model `networkResourceModel`, in the order of its declaration. -/
structure networkResourceModel where
  NameLabel : TypesString
  NameDescription : TypesString
  OtherConfig : TypesMap
  UUID : TypesString
deriving DecidableEq

/-- The calls of `xenapi.Network` that the resource issues, over a remote state `σ`.
A call that fails leaves the remote state as it was. -/
structure NetworkAPI (σ : Type) where
  Create : σ → NetworkRecord → Except String (NetworkRef × σ)
  GetRecord : σ → NetworkRef → Except String NetworkRecord
  GetByUUID : σ → String → Except String NetworkRef
  SetNameLabel : σ → NetworkRef → String → Except String σ
  Destroy : σ → NetworkRef → Except String σ

/-- One remote call, as recorded in the trace of a handler. -/
inductive NetworkCall where
  | Create (record : NetworkRecord)
  | GetRecord (ref : NetworkRef)
  | GetByUUID (uuid : String)
  | SetNameLabel (ref : NetworkRef) (value : String)
  | Destroy (ref : NetworkRef)
deriving DecidableEq

/-- The calls that change the remote store. -/
def NetworkCall.isMutating : NetworkCall → Bool
  | .Create _ => true
  | .SetNameLabel _ _ => true
  | .Destroy _ => true
  | _ => false

/-- Response of a resource handler (`CreateResponse`, `ReadResponse`, `UpdateResponse`,
`DeleteResponse`): diagnostics and the state the framework will persist. -/
structure ResourceResponse where
  Diagnostics : Diagnostics
  State : Option networkResourceModel
deriving DecidableEq

/-- What a handler leaves behind: its response, the remote state, and the remote
calls it issued, in order. -/
structure Outcome (σ : Type) where
  resp : ResourceResponse
  remote : σ
  calls : List NetworkCall

/-- Go `make(map[string]string, n)`: a new map with room for `n` entries and no
entry in it. -/
def makeStringMap (_n : Nat) : StringMap := []

/-- Framework `types.MapValueFrom(ctx, types.StringType, m)` for a Go string map: the
known map with the same elements, no diagnostics. -/
def MapValueFrom (m : StringMap) : TypesMap × Diagnostics := (TypesMap.value m, [])

/-- Function `updateNetworkResourceModelComputed`: writes `id`, `name_description`
and `other_config` from the record.  The model is written through the pointer also
when the map conversion reports an error; the error is the second component. -/
def updateNetworkResourceModelComputed (mapValueFrom : StringMap → TypesMap × Diagnostics)
    (networkRecord : NetworkRecord) (data : networkResourceModel) :
    networkResourceModel × Option String :=
  let data := { data with UUID := StringValue networkRecord.UUID }
  let data := { data with NameDescription := StringValue networkRecord.NameDescription }
  let converted := mapValueFrom networkRecord.OtherConfig
  let data := { data with OtherConfig := converted.1 }
  if converted.2.HasError then
    (data, some "unable to update data for network other_config")
  else
    (data, none)

/-- Function `updateNetworkResourceModel`: writes `name_label`, then the computed
fields. -/
def updateNetworkResourceModel (mapValueFrom : StringMap → TypesMap × Diagnostics)
    (networkRecord : NetworkRecord) (data : networkResourceModel) :
    networkResourceModel × Option String :=
  let data := { data with NameLabel := StringValue networkRecord.NameLabel }
  let updated := updateNetworkResourceModelComputed mapValueFrom networkRecord data
  match updated.2 with
  | some err => (updated.1, some err)
  | none => (updated.1, none)

/-- The record `Create` sends: label and description from the plan, and a map made
with `make` for `other_config`. -/
def createPayload (data : networkResourceModel) : NetworkRecord :=
  { UUID := ""
    NameLabel := data.NameLabel.ValueString
    NameDescription := data.NameDescription.ValueString
    OtherConfig := makeStringMap data.OtherConfig.Elements.length }

/-- Handler `networkResource.Create`.  `planDiags` and `data` are the result of
`req.Plan.Get`. -/
def networkResource.Create {σ : Type} (api : NetworkAPI σ)
    (mapValueFrom : StringMap → TypesMap × Diagnostics) (session : σ)
    (planDiags : Diagnostics) (data : networkResourceModel) (resp : ResourceResponse) :
    Outcome σ :=
  let resp := { resp with Diagnostics := resp.Diagnostics ++ planDiags }
  if resp.Diagnostics.HasError then ⟨resp, session, []⟩
  else
    let networkRecord := createPayload data
    match api.Create session networkRecord with
    | .error err =>
      ⟨{ resp with Diagnostics := resp.Diagnostics.AddError "Unable to create network" err },
        session, [.Create networkRecord]⟩
    | .ok (networkRef, session) =>
      match api.GetRecord session networkRef with
      | .error err =>
        ⟨{ resp with
            Diagnostics := resp.Diagnostics.AddError "Unable to get network record" err },
          session, [.Create networkRecord, .GetRecord networkRef]⟩
      | .ok record =>
        let updated := updateNetworkResourceModelComputed mapValueFrom record data
        match updated.2 with
        | some err =>
          ⟨{ resp with
              Diagnostics := resp.Diagnostics.AddError
                "Unable to update the computed fields of NetworkResourceModel" err },
            session, [.Create networkRecord, .GetRecord networkRef]⟩
        | none =>
          ⟨{ resp with State := some updated.1 },
            session, [.Create networkRecord, .GetRecord networkRef]⟩

/-- Handler `networkResource.Read`.  `stateDiags` and `data` are the result of
`req.State.Get`; `resp` arrives holding the prior state. -/
def networkResource.Read {σ : Type} (api : NetworkAPI σ)
    (mapValueFrom : StringMap → TypesMap × Diagnostics) (session : σ)
    (stateDiags : Diagnostics) (data : networkResourceModel) (resp : ResourceResponse) :
    Outcome σ :=
  let resp := { resp with Diagnostics := resp.Diagnostics ++ stateDiags }
  if resp.Diagnostics.HasError then ⟨resp, session, []⟩
  else
    match api.GetByUUID session data.UUID.ValueString with
    | .error err =>
      ⟨{ resp with Diagnostics := resp.Diagnostics.AddError "Unable to get network ref" err },
        session, [.GetByUUID data.UUID.ValueString]⟩
    | .ok networkRef =>
      match api.GetRecord session networkRef with
      | .error err =>
        ⟨{ resp with
            Diagnostics := resp.Diagnostics.AddError "Unable to get network record" err },
          session, [.GetByUUID data.UUID.ValueString, .GetRecord networkRef]⟩
      | .ok networkRecord =>
        let updated := updateNetworkResourceModel mapValueFrom networkRecord data
        match updated.2 with
        | some err =>
          ⟨{ resp with
              Diagnostics := resp.Diagnostics.AddError
                "Unable to update the fields of NetworkResourceModel" err },
            session, [.GetByUUID data.UUID.ValueString, .GetRecord networkRef]⟩
        | none =>
          ⟨{ resp with State := some updated.1 },
            session, [.GetByUUID data.UUID.ValueString, .GetRecord networkRef]⟩

/-- Handler `networkResource.Update`.  `planDiags` and `data` are the result of
`req.Plan.Get`; `resp` arrives holding the prior state. -/
def networkResource.Update {σ : Type} (api : NetworkAPI σ)
    (mapValueFrom : StringMap → TypesMap × Diagnostics) (session : σ)
    (planDiags : Diagnostics) (data : networkResourceModel) (resp : ResourceResponse) :
    Outcome σ :=
  let resp := { resp with Diagnostics := resp.Diagnostics ++ planDiags }
  if resp.Diagnostics.HasError then ⟨resp, session, []⟩
  else
    match api.GetByUUID session data.UUID.ValueString with
    | .error err =>
      ⟨{ resp with Diagnostics := resp.Diagnostics.AddError "Unable to get network ref" err },
        session, [.GetByUUID data.UUID.ValueString]⟩
    | .ok networkRef =>
      match api.SetNameLabel session networkRef data.NameLabel.ValueString with
      | .error err =>
        ⟨{ resp with
            Diagnostics := resp.Diagnostics.AddError "Unable to set name label of network" err },
          session,
          [.GetByUUID data.UUID.ValueString,
            .SetNameLabel networkRef data.NameLabel.ValueString]⟩
      | .ok session =>
        match api.GetRecord session networkRef with
        | .error err =>
          ⟨{ resp with
              Diagnostics := resp.Diagnostics.AddError "Unable to get network record" err },
            session,
            [.GetByUUID data.UUID.ValueString,
              .SetNameLabel networkRef data.NameLabel.ValueString, .GetRecord networkRef]⟩
        | .ok record =>
          let updated := updateNetworkResourceModelComputed mapValueFrom record data
          match updated.2 with
          | some err =>
            ⟨{ resp with
                Diagnostics := resp.Diagnostics.AddError
                  "Unable to update the computed fields of network resource model" err },
              session,
              [.GetByUUID data.UUID.ValueString,
                .SetNameLabel networkRef data.NameLabel.ValueString, .GetRecord networkRef]⟩
          | none =>
            ⟨{ resp with State := some updated.1 },
              session,
              [.GetByUUID data.UUID.ValueString,
                .SetNameLabel networkRef data.NameLabel.ValueString, .GetRecord networkRef]⟩

/-- Handler `networkResource.Delete`.  `stateDiags` and `data` are the result of
`req.State.Get`.  The handler does not touch the response state; removing the
resource from the state after an error-free return is the framework's part. -/
def networkResource.Delete {σ : Type} (api : NetworkAPI σ) (session : σ)
    (stateDiags : Diagnostics) (data : networkResourceModel) (resp : ResourceResponse) :
    Outcome σ :=
  let resp := { resp with Diagnostics := resp.Diagnostics ++ stateDiags }
  if resp.Diagnostics.HasError then ⟨resp, session, []⟩
  else
    match api.GetByUUID session data.UUID.ValueString with
    | .error err =>
      ⟨{ resp with Diagnostics := resp.Diagnostics.AddError "Unable to get network ref" err },
        session, [.GetByUUID data.UUID.ValueString]⟩
    | .ok networkRef =>
      match api.Destroy session networkRef with
      | .error err =>
        ⟨{ resp with Diagnostics := resp.Diagnostics.AddError "Unable to destroy network" err },
          session, [.GetByUUID data.UUID.ValueString, .Destroy networkRef]⟩
      | .ok session =>
        ⟨resp, session, [.GetByUUID data.UUID.ValueString, .Destroy networkRef]⟩

/-- Handler `networkResource.ImportState`: `resource.ImportStatePassthroughID` on the
path `id` writes the request identifier into `id` of an otherwise null state. -/
def networkResource.ImportState (id : String) (resp : ResourceResponse) : ResourceResponse :=
  { resp with
    State := some
      { NameLabel := .null, NameDescription := .null, OtherConfig := .null,
        UUID := StringValue id } }

/-! ## Reference remote store -/

/-- Contents of the remote pool: the networks by reference, and the counter from
which the next reference and UUID are drawn. -/
structure Store where
  networks : List (NetworkRef × NetworkRecord)
  next : Nat
deriving DecidableEq

/-- Reference handed out for the `n`-th created network. -/
def Store.refOf (n : Nat) : NetworkRef := "OpaqueRef:" ++ toString n

/-- UUID assigned to the `n`-th created network. -/
def Store.uuidOf (n : Nat) : String := "uuid-" ++ toString n

/-- Record held under a reference, if any. -/
def Store.lookup (s : Store) (ref : NetworkRef) : Option NetworkRecord :=
  (s.networks.find? (fun e => e.1 == ref)).map Prod.snd

/-- Modelled from the spec: the remote network store behind `xenapi.Network` (the
XenAPI client is not among the sources).  `Create` stores the record it is sent under
a new reference with a newly assigned UUID; `GetRecord` and `GetByUUID` look a record
up by reference and by UUID; `SetNameLabel` rewrites the label of the record under
the reference; `Destroy` removes it.  A reference or UUID that is not in the store is
an error. -/
def memAPI : NetworkAPI Store where
  Create s record :=
    .ok (Store.refOf s.next,
      { networks := s.networks ++ [(Store.refOf s.next, { record with UUID := Store.uuidOf s.next })]
        next := s.next + 1 })
  GetRecord s ref :=
    match s.lookup ref with
    | some record => .ok record
    | none => .error "HANDLE_INVALID"
  GetByUUID s uuid :=
    match s.networks.find? (fun e => e.2.UUID == uuid) with
    | some e => .ok e.1
    | none => .error "UUID_INVALID"
  SetNameLabel s ref value :=
    match s.lookup ref with
    | some _ =>
      .ok { s with
        networks := s.networks.map
          (fun e => if e.1 == ref then (e.1, { e.2 with NameLabel := value }) else e) }
    | none => .error "HANDLE_INVALID"
  Destroy s ref :=
    match s.lookup ref with
    | some _ => .ok { s with networks := s.networks.filter (fun e => e.1 != ref) }
    | none => .error "HANDLE_INVALID"

/-! ## Auxiliary definitions for the statements -/

/-- A constraint of the data source configuration: null when the attribute is not
set, a known string when it is. -/
def TypesString.ofOption : Option String → TypesString
  | none => .null
  | some s => .value s

/-- The record passes the loop body of `Read`: none of its three `continue` tests
fires. -/
def vmKeeps (data : vmDataSourceModel) (vmRecord : VMRecord) : Bool :=
  !(!data.NameLabel.IsNull && vmRecord.NameLabel != data.NameLabel.ValueString)
  && !(!data.UUID.IsNull && vmRecord.UUID != data.UUID.ValueString)
  && !(vmRecord.IsATemplate || vmRecord.IsDefaultTemplate
        || vmRecord.SnapshotOf != "OpaqueRef:NULL" || vmRecord.Domid == 0)

/-- The filter predicate in the words of the specification: each constraint is unset
or met exactly, and the record is no template, no default template, has `SnapshotOf`
equal to `OpaqueRef:NULL` and a `Domid` other than zero. -/
def vmSpecMatches (nameLabel uuid : Option String) (r : VMRecord) : Bool :=
  decide ((nameLabel = none ∨ nameLabel = some r.NameLabel)
    ∧ (uuid = none ∨ uuid = some r.UUID)
    ∧ r.IsATemplate = false ∧ r.IsDefaultTemplate = false
    ∧ r.SnapshotOf = "OpaqueRef:NULL" ∧ r.Domid ≠ 0)

/-- Configuration of the data source with the two constraints and no items yet. -/
def vmConfig (nameLabel uuid : Option String) : vmDataSourceModel :=
  { UUID := .ofOption uuid, NameLabel := .ofOption nameLabel, DataItems := [] }

/-- Response as the framework hands it to a handler that starts from nothing: no
diagnostics, no state. -/
def emptyReadResponse : ReadResponse := { Diagnostics := [], State := none }

/-! ## Sample data -/

/-- A running VM. -/
def vmA : VMRecord :=
  { UUID := "uuid-2", NameLabel := "vm-A", NameDescription := "first", IsATemplate := false,
    IsDefaultTemplate := false, IsASnapshot := false, SnapshotOf := "OpaqueRef:NULL",
    IsControlDomain := false, Domid := 3 }

/-- Another running VM, with a smaller UUID and the empty label. -/
def vmB : VMRecord :=
  { UUID := "uuid-1", NameLabel := "", NameDescription := "second", IsATemplate := false,
    IsDefaultTemplate := false, IsASnapshot := false, SnapshotOf := "OpaqueRef:NULL",
    IsControlDomain := false, Domid := 4 }

/-- A template. -/
def vmTemplate : VMRecord :=
  { UUID := "uuid-0", NameLabel := "vm-A", NameDescription := "template", IsATemplate := true,
    IsDefaultTemplate := false, IsASnapshot := false, SnapshotOf := "OpaqueRef:NULL",
    IsControlDomain := false, Domid := -1 }

/-- The control domain, domain 0. -/
def vmDom0 : VMRecord :=
  { UUID := "uuid-9", NameLabel := "Control domain", NameDescription := "dom0",
    IsATemplate := false, IsDefaultTemplate := false, IsASnapshot := false,
    SnapshotOf := "OpaqueRef:NULL", IsControlDomain := true, Domid := 0 }

/-- A collection in one enumeration order. -/
def samplePool : List (VMRef × VMRecord) :=
  [("OpaqueRef:1", vmA), ("OpaqueRef:2", vmB), ("OpaqueRef:3", vmTemplate),
    ("OpaqueRef:4", vmDom0)]

/-- The collection `samplePool` in another enumeration order. -/
def samplePoolReordered : List (VMRef × VMRecord) :=
  [("OpaqueRef:4", vmDom0), ("OpaqueRef:2", vmB), ("OpaqueRef:3", vmTemplate),
    ("OpaqueRef:1", vmA)]

/-- The conversion of a record by the direct field copy, for a record that converts. -/
def itemOf (r : VMRecord) : vmRecordData :=
  { UUID := StringValue r.UUID, NameLabel := StringValue r.NameLabel,
    NameDescription := StringValue r.NameDescription, IsATemplate := r.IsATemplate,
    IsDefaultTemplate := r.IsDefaultTemplate, IsASnapshot := r.IsASnapshot,
    IsControlDomain := r.IsControlDomain }

/-- Response as the framework hands it to `Create`: no diagnostics, no state. -/
def emptyResourceResponse : ResourceResponse := { Diagnostics := [], State := none }

/-- The remote pool with no network in it. -/
def emptyStore : Store := { networks := [], next := 0 }

/-- The plan of the specification's scenario: `name_label = "net-1"`, the defaults for
`name_description` and `other_config`, `id` not yet known. -/
def planNet1 : networkResourceModel :=
  { NameLabel := .value "net-1", NameDescription := .value "", OtherConfig := .value [],
    UUID := .unknown }

/-- A plan that sets one key of `other_config`. -/
def planWithOtherConfig : networkResourceModel :=
  { NameLabel := .value "net-1", NameDescription := .value "",
    OtherConfig := .value [("mtu", "9000")], UUID := .unknown }

/-- A remote whose create call is rejected. -/
def rejectingAPI : NetworkAPI Store :=
  { memAPI with Create := fun _ _ => .error "NETWORK_CREATE_REJECTED" }

/-- A remote that creates the network and then fails to return its record. -/
def forgetfulAPI : NetworkAPI Store :=
  { memAPI with GetRecord := fun _ _ => .error "HANDLE_INVALID" }

/-- A map conversion that reports an error. -/
def failingMapValueFrom (_m : StringMap) : TypesMap × Diagnostics :=
  (TypesMap.unknown, [⟨Severity.error, "Value Conversion Error", "cannot convert map"⟩])

/-- A pool holding two networks. -/
def twoNetStore : Store :=
  { networks :=
      [("OpaqueRef:0", { UUID := "uuid-0", NameLabel := "net-1", NameDescription := "lab",
                         OtherConfig := [("mtu", "1500")] }),
       ("OpaqueRef:1", { UUID := "uuid-1", NameLabel := "storage", NameDescription := "",
                         OtherConfig := [] })]
    next := 2 }

/-- State of the first network of `twoNetStore`, as a read leaves it. -/
def stateNet1 : networkResourceModel :=
  { NameLabel := .value "net-1", NameDescription := .value "lab",
    OtherConfig := .value [("mtu", "1500")], UUID := .value "uuid-0" }

/-- State of a network whose UUID is not in `twoNetStore`. -/
def stateGone : networkResourceModel :=
  { NameLabel := .value "old", NameDescription := .value "", OtherConfig := .value [],
    UUID := .value "uuid-7" }

/-- A remote that resolves every UUID and then fails to return the record. -/
def unreachableRecordAPI : NetworkAPI Store :=
  { memAPI with GetRecord := fun _ _ => .error "connection reset" }

/-! ## Network schema (`NetworkSchema`) -/

/-- Framework plan modifiers of an attribute: `UseStateForUnknown`, and
`RequiresReplace`, by which the schema layer declares that a change of the attribute
forces replacement of the entity. -/
inductive PlanModifier where
  | UseStateForUnknown
  | RequiresReplace
deriving DecidableEq

/-- Static default of an attribute: `stringdefault.StaticString` or
`mapdefault.StaticValue`. -/
inductive StaticDefault where
  | StaticString (s : String)
  | StaticValue (m : StringMap)
deriving DecidableEq

/-- The declaration of one attribute: the flags, the default and the plan modifiers. -/
structure SchemaAttribute where
  Required : Bool
  Optional : Bool
  Computed : Bool
  Default : Option StaticDefault
  PlanModifiers : List PlanModifier
deriving DecidableEq

/-- Function `NetworkSchema`: the four attributes of the network resource, by name. -/
def NetworkSchema : List (String × SchemaAttribute) :=
  [("id",
      { Required := false, Optional := false, Computed := true, Default := none,
        PlanModifiers := [PlanModifier.UseStateForUnknown] }),
   ("name_label",
      { Required := true, Optional := false, Computed := false, Default := none,
        PlanModifiers := [] }),
   ("name_description",
      { Required := false, Optional := true, Computed := true,
        Default := some (StaticDefault.StaticString ""), PlanModifiers := [] }),
   ("other_config",
      { Required := false, Optional := true, Computed := true,
        Default := some (StaticDefault.StaticValue []), PlanModifiers := [] })]

/-- An attribute the user can set: required or optional. -/
def SchemaAttribute.userSettable (a : SchemaAttribute) : Bool := a.Required || a.Optional

/-- A change of the attribute forces replacement: its plan modifiers include
`RequiresReplace`. -/
def SchemaAttribute.forcesReplacement (a : SchemaAttribute) : Bool :=
  decide (PlanModifier.RequiresReplace ∈ a.PlanModifiers)

/-- The names of the attributes in which a plan differs from the prior state. -/
def changedAttributes (prior plan : networkResourceModel) : List String :=
  (if prior.UUID = plan.UUID then [] else ["id"])
  ++ (if prior.NameLabel = plan.NameLabel then [] else ["name_label"])
  ++ (if prior.NameDescription = plan.NameDescription then [] else ["name_description"])
  ++ (if prior.OtherConfig = plan.OtherConfig then [] else ["other_config"])

/-- What the framework does with a plan for an existing resource. -/
inductive PlannedAction where
  | NoChange
  | UpdateInPlace
  | DeleteThenCreate
deriving DecidableEq

/-- The framework's choice for an existing resource: nothing when no attribute
differs, replacement (delete, then create) when some differing attribute is declared
to force replacement, the `Update` handler otherwise. -/
def plannedAction (schema : List (String × SchemaAttribute))
    (prior plan : networkResourceModel) : PlannedAction :=
  if changedAttributes prior plan = [] then PlannedAction.NoChange
  else if (changedAttributes prior plan).any
      (fun name => schema.any (fun e => e.1 == name && e.2.forcesReplacement)) then
    PlannedAction.DeleteThenCreate
  else PlannedAction.UpdateInPlace

/-! ## Further sample data -/

/-- A driver domain: a control domain whose domain identifier is not zero. -/
def vmDriverDomain : VMRecord :=
  { UUID := "uuid-5", NameLabel := "driver domain", NameDescription := "storage driver",
    IsATemplate := false, IsDefaultTemplate := false, IsASnapshot := false,
    SnapshotOf := "OpaqueRef:NULL", IsControlDomain := true, Domid := 7 }

/-- A snapshot whose source VM is gone: `IsASnapshot` is set and `SnapshotOf` is the
null reference. -/
def vmOrphanSnapshot : VMRecord :=
  { UUID := "uuid-6", NameLabel := "backup", NameDescription := "snapshot", IsATemplate := false,
    IsDefaultTemplate := false, IsASnapshot := true, SnapshotOf := "OpaqueRef:NULL",
    IsControlDomain := false, Domid := -1 }

/-- A collection holding a driver domain and an orphan snapshot. -/
def driverPool : List (VMRef × VMRecord) :=
  [("OpaqueRef:6", vmDriverDomain), ("OpaqueRef:7", vmOrphanSnapshot)]

/-- The plan that renames the first network of `twoNetStore` to `net-2`. -/
def planRename : networkResourceModel :=
  { stateNet1 with NameLabel := .value "net-2" }

/-- A prior state of the first network of `twoNetStore` whose description is not the
remote one. -/
def stateStale : networkResourceModel :=
  { stateNet1 with NameDescription := .value "stale" }

/-- The plan that changes only the description of the first network of
`twoNetStore`. -/
def planNewDescription : networkResourceModel :=
  { stateNet1 with NameDescription := .value "new" }

/-- A remote that refuses every change of an existing network. -/
def readOnlyAPI : NetworkAPI Store :=
  { memAPI with
    SetNameLabel := fun _ _ _ => .error "OPERATION_NOT_ALLOWED"
    Destroy := fun _ _ => .error "OPERATION_NOT_ALLOWED" }

/-! ## Lemmas on the sort -/

theorem mem_insertBack {α : Type} (less : α → α → Bool) (x z : α) (l : List α) :
    z ∈ insertBack less x l ↔ z = x ∨ z ∈ l := by
  induction l with
  | nil => simp [insertBack]
  | cons y ys ih =>
    unfold insertBack
    split
    · simp only [List.mem_cons, ih]
      tauto
    · simp only [List.mem_cons]

theorem perm_insertBack {α : Type} (less : α → α → Bool) (x : α) (l : List α) :
    (insertBack less x l).Perm (x :: l) := by
  induction l with
  | nil => simp [insertBack]
  | cons y ys ih =>
    unfold insertBack
    split
    · exact (List.Perm.cons y ih).trans (List.Perm.swap x y ys)
    · exact List.Perm.refl _

theorem pairwise_insertBack {α : Type} (less : α → α → Bool) (h : StrictWeakOrder less)
    (x : α) (l : List α) (hl : l.Pairwise (fun a b => less a b = false)) :
    (insertBack less x l).Pairwise (fun a b => less a b = false) := by
  induction l with
  | nil => simp [insertBack]
  | cons y ys ih =>
    have hy := List.pairwise_cons.mp hl
    unfold insertBack
    split
    · rename_i hxy
      refine List.pairwise_cons.mpr ⟨?_, ih hy.2⟩
      intro z hz
      rcases (mem_insertBack less x z ys).mp hz with rfl | hz
      · exact h.asymm _ _ hxy
      · exact hy.1 z hz
    · rename_i hxy
      have hxy : less x y = false := by simpa using hxy
      refine List.pairwise_cons.mpr ⟨?_, hl⟩
      intro z hz
      rcases List.mem_cons.mp hz with rfl | hz
      · exact hxy
      · exact h.negTrans z y x (hy.1 z hz) hxy

theorem foldl_insertBack {α : Type} (less : α → α → Bool) (h : StrictWeakOrder less)
    (xs : List α) : ∀ rev : List α, rev.Pairwise (fun a b => less a b = false) →
      (xs.foldl (fun rev x => insertBack less x rev) rev).Pairwise (fun a b => less a b = false)
      ∧ (xs.foldl (fun rev x => insertBack less x rev) rev).Perm (xs ++ rev) := by
  induction xs with
  | nil => intro rev hrev; exact ⟨hrev, List.Perm.refl _⟩
  | cons x xs ih =>
    intro rev hrev
    have := ih (insertBack less x rev) (pairwise_insertBack less h x rev hrev)
    refine ⟨this.1, this.2.trans ?_⟩
    simp only [List.cons_append]
    exact (List.Perm.append_left xs (perm_insertBack less x rev)).trans
      List.perm_middle

/-- Go's insertion sort meets the contract of `sort.Slice`. -/
theorem insertionSortLessFunc_contract {α : Type} :
    SortSliceContract (insertionSortLessFunc : (α → α → Bool) → List α → List α) := by
  intro less xs h
  have := foldl_insertBack less h xs [] List.Pairwise.nil
  unfold insertionSortLessFunc
  refine ⟨(List.reverse_perm _).trans (by simpa using this.2), ?_⟩
  rw [List.pairwise_reverse]
  exact this.1

/-- The comparison `stringLess` is the strict order of strings. -/
theorem stringLess_iff (a b : String) : stringLess a b = true ↔ a < b := by
  simp [stringLess, String.lt_iff_toList_lt]

theorem stringLess_eq_false_iff (a b : String) : stringLess a b = false ↔ b ≤ a := by
  rw [← not_lt, ← stringLess_iff, Bool.not_eq_true]

/-- The UUID comparison of `Read` is a strict weak order. -/
theorem uuidLess_strictWeakOrder : StrictWeakOrder uuidLess := by
  constructor
  · intro a b hab
    simp only [uuidLess, stringLess_iff, stringLess_eq_false_iff] at *
    exact le_of_lt hab
  · intro a b c hba hcb
    simp only [uuidLess, stringLess_eq_false_iff] at *
    exact le_trans hba hcb

/-! ## Lemmas on the loop of the VM data source -/

theorem vmKeeps_config (nameLabel uuid : Option String) (r : VMRecord) :
    vmKeeps (vmConfig nameLabel uuid) r = vmSpecMatches nameLabel uuid r := by
  rcases r with ⟨u, n, d, t, dt, sn, so, cd, dom⟩
  rw [Bool.eq_iff_iff]
  rcases nameLabel with _ | a <;> rcases uuid with _ | b
  · simp [vmKeeps, vmSpecMatches, vmConfig, TypesString.ofOption, TypesString.IsNull,
      TypesString.ValueString, and_assoc]
  · simp [vmKeeps, vmSpecMatches, vmConfig, TypesString.ofOption, TypesString.IsNull,
      TypesString.ValueString, and_assoc, @eq_comm String b]
  · simp [vmKeeps, vmSpecMatches, vmConfig, TypesString.ofOption, TypesString.IsNull,
      TypesString.ValueString, and_assoc, @eq_comm String a]
  · simp [vmKeeps, vmSpecMatches, vmConfig, TypesString.ofOption, TypesString.IsNull,
      TypesString.ValueString, and_assoc, @eq_comm String a, @eq_comm String b]

theorem vmReadLoop_cons_skip (conv : VMRecord → Except String vmRecordData)
    (data : vmDataSourceModel) (e : VMRef × VMRecord) (rest : List (VMRef × VMRecord))
    (acc : List vmRecordData) (h : vmKeeps data e.2 = false) :
    vmReadLoop conv data (e :: rest) acc = vmReadLoop conv data rest acc := by
  rcases e with ⟨ref, r⟩
  simp only [vmKeeps, Bool.and_eq_false_iff, Bool.not_eq_false_eq_eq_true] at h
  rw [vmReadLoop]
  rcases h with (h | h) | h
  · simp only [h, if_true]
  · simp only [h, if_true, ite_self]
  · simp only [h, if_true, ite_self]

theorem vmReadLoop_cons_keep (conv : VMRecord → Except String vmRecordData)
    (data : vmDataSourceModel) (e : VMRef × VMRecord) (rest : List (VMRef × VMRecord))
    (acc : List vmRecordData) (h : vmKeeps data e.2 = true) :
    vmReadLoop conv data (e :: rest) acc =
      match conv e.2 with
      | .error err => .error err
      | .ok vmItem => vmReadLoop conv data rest (acc ++ [vmItem]) := by
  rcases e with ⟨ref, r⟩
  simp only [vmKeeps, Bool.and_eq_true, Bool.not_eq_eq_eq_not, Bool.not_true] at h
  rw [vmReadLoop]
  simp only [h.1.1, h.1.2, h.2, Bool.false_eq_true, if_false]

/-- If every kept record converts, the loop returns the conversions in input order. -/
theorem vmReadLoop_of_converts (conv : VMRecord → Except String vmRecordData)
    (data : vmDataSourceModel) :
    ∀ (recs : List (VMRef × VMRecord)) (acc : List vmRecordData),
      (∀ r ∈ (recs.map Prod.snd).filter (vmKeeps data), ∃ item, conv r = .ok item) →
      vmReadLoop conv data recs acc =
        .ok (acc ++ ((recs.map Prod.snd).filter (vmKeeps data)).filterMap
          (fun r => (conv r).toOption)) := by
  intro recs
  induction recs with
  | nil => intro acc _; simp [vmReadLoop]
  | cons e rest ih =>
    intro acc h
    by_cases hk : vmKeeps data e.2 = true
    · rw [vmReadLoop_cons_keep conv data e rest acc hk]
      have hmem : e.2 ∈ ((e :: rest).map Prod.snd).filter (vmKeeps data) := by
        simp [List.filter_cons, hk]
      obtain ⟨item, hitem⟩ := h e.2 hmem
      have hrest : ∀ r ∈ (rest.map Prod.snd).filter (vmKeeps data), ∃ item, conv r = .ok item := by
        intro r hr
        apply h r
        simp only [List.map_cons, List.filter_cons, hk, if_true, List.mem_cons]
        exact Or.inr hr
      simp only [hitem]
      rw [ih (acc ++ [item]) hrest]
      simp [List.filter_cons, hk, hitem, Except.toOption]
    · have hk : vmKeeps data e.2 = false := by simpa using hk
      rw [vmReadLoop_cons_skip conv data e rest acc hk]
      have hrest : ∀ r ∈ (rest.map Prod.snd).filter (vmKeeps data), ∃ item, conv r = .ok item := by
        intro r hr
        apply h r
        simpa [List.filter_cons, hk] using hr
      rw [ih acc hrest]
      simp [List.filter_cons, hk]

/-- If the loop returns, every kept record converted. -/
theorem vmReadLoop_converts_of_ok (conv : VMRecord → Except String vmRecordData)
    (data : vmDataSourceModel) :
    ∀ (recs : List (VMRef × VMRecord)) (acc items : List vmRecordData),
      vmReadLoop conv data recs acc = .ok items →
      ∀ r ∈ (recs.map Prod.snd).filter (vmKeeps data), ∃ item, conv r = .ok item := by
  intro recs
  induction recs with
  | nil => intro acc items _ r hr; simp at hr
  | cons e rest ih =>
    intro acc items h r hr
    by_cases hk : vmKeeps data e.2 = true
    · rw [vmReadLoop_cons_keep conv data e rest acc hk] at h
      simp only [List.map_cons, List.filter_cons, hk, if_true, List.mem_cons] at hr
      cases hc : conv e.2 with
      | error err => simp [hc] at h
      | ok item =>
        simp only [hc] at h
        rcases hr with rfl | hr
        · exact ⟨item, hc⟩
        · exact ih _ _ h r hr
    · have hk : vmKeeps data e.2 = false := by simpa using hk
      rw [vmReadLoop_cons_skip conv data e rest acc hk] at h
      have hr : r ∈ (rest.map Prod.snd).filter (vmKeeps data) := by
        simpa [List.filter_cons, hk] using hr
      exact ih _ _ h r hr

/-- Records that all convert are related one to one with their conversions. -/
theorem forall₂_filterMap_of_converts (conv : VMRecord → Except String vmRecordData) :
    ∀ kept : List VMRecord, (∀ r ∈ kept, ∃ item, conv r = .ok item) →
      List.Forall₂ (fun r item => conv r = .ok item) kept
        (kept.filterMap (fun r => (conv r).toOption)) := by
  intro kept
  induction kept with
  | nil => intro _; exact List.Forall₂.nil
  | cons r rest ih =>
    intro h
    obtain ⟨item, hitem⟩ := h r (List.mem_cons_self _ _)
    have hrest := ih (fun x hx => h x (List.mem_cons_of_mem _ hx))
    simp only [List.filterMap_cons, hitem, Except.toOption]
    exact List.Forall₂.cons hitem hrest

/-- The state `Read` leaves, in terms of the kept records: set to the sorted
conversions when all of them convert, left alone otherwise. -/
theorem vmRead_ok_of_converts
    (sortSlice : (vmRecordData → vmRecordData → Bool) → List vmRecordData → List vmRecordData)
    (conv : VMRecord → Except String vmRecordData) (recs : List (VMRef × VMRecord))
    (data : vmDataSourceModel)
    (h : ∀ r ∈ (recs.map Prod.snd).filter (vmKeeps data), ∃ item, conv r = .ok item) :
    vmDataSource.Read (.ok recs) conv sortSlice [] data emptyReadResponse =
      { Diagnostics := [],
        State := some { data with
          DataItems := sortSlice uuidLess
            (((recs.map Prod.snd).filter (vmKeeps data)).filterMap
              (fun r => (conv r).toOption)) } } := by
  simp [vmDataSource.Read, emptyReadResponse, Diagnostics.HasError,
    vmReadLoop_of_converts conv data recs [] h]

theorem vmRead_state_of_fails
    (sortSlice : (vmRecordData → vmRecordData → Bool) → List vmRecordData → List vmRecordData)
    (conv : VMRecord → Except String vmRecordData) (recs : List (VMRef × VMRecord))
    (configDiags : Diagnostics) (data : vmDataSourceModel) (resp : ReadResponse)
    (h : ¬ ∀ r ∈ (recs.map Prod.snd).filter (vmKeeps data), ∃ item, conv r = .ok item) :
    (vmDataSource.Read (.ok recs) conv sortSlice configDiags data resp).State = resp.State := by
  unfold vmDataSource.Read
  simp only
  split
  · rfl
  · cases hl : vmReadLoop conv data recs [] with
    | error err => rfl
    | ok items => exact absurd (vmReadLoop_converts_of_ok conv data recs [] items hl) h

/-- Two rearrangements of one list that are both sorted by UUID are equal when the
UUIDs are pairwise distinct. -/
theorem eq_of_perm_of_sorted_uuid (l₁ l₂ : List vmRecordData) (hp : l₁.Perm l₂)
    (h₁ : l₁.Pairwise (fun a b => uuidLess b a = false))
    (h₂ : l₂.Pairwise (fun a b => uuidLess b a = false))
    (hnd : (l₁.map (fun it => it.UUID.ValueString)).Nodup) : l₁ = l₂ := by
  have hnd₂ : (l₂.map (fun it => it.UUID.ValueString)).Nodup :=
    (hp.map _).nodup_iff.mp hnd
  have strict : ∀ l : List vmRecordData, l.Pairwise (fun a b => uuidLess b a = false) →
      (l.map (fun it => it.UUID.ValueString)).Nodup →
      l.Pairwise (fun a b => a.UUID.ValueString < b.UUID.ValueString) := by
    intro l hs hn
    have hn : l.Pairwise (fun a b => a.UUID.ValueString ≠ b.UUID.ValueString) := by
      simpa [List.Nodup, List.pairwise_map] using hn
    refine (hs.and hn).imp ?_
    intro a b hab
    have hle : a.UUID.ValueString ≤ b.UUID.ValueString :=
      (stringLess_eq_false_iff _ _).mp hab.1
    exact lt_of_le_of_ne hle hab.2
  haveI : IsAntisymm vmRecordData (fun a b => a.UUID.ValueString < b.UUID.ValueString) :=
    ⟨fun a b hab hba => absurd hab (lt_asymm hba)⟩
  exact List.eq_of_perm_of_sorted hp (strict l₁ h₁ hnd) (strict l₂ h₂ hnd₂)

/-- A one-to-one relation between two lists carries over to a rearrangement of the
second list. -/
theorem forall₂_perm_right {α β : Type} (r : α → β → Prop) (l : List α) (m m' : List β)
    (h : List.Forall₂ r l m) (hp : m'.Perm m) :
    ∃ l', l'.Perm l ∧ List.Forall₂ r l' m' := by
  have hflip : List.Forall₂ (flip r) m l := List.Forall₂.flip (R := flip r) h
  obtain ⟨c, hc, hcl⟩ := List.perm_comp_forall₂ hp hflip
  exact ⟨c, hcl, List.Forall₂.flip hc⟩

/-- The UUID strings of the conversions are the UUIDs of the records when the
conversion copies the UUID. -/
theorem map_uuid_filterMap (conv : VMRecord → Except String vmRecordData)
    (hcopy : ∀ r item, conv r = .ok item → item.UUID = StringValue r.UUID) :
    ∀ kept : List VMRecord, (∀ r ∈ kept, ∃ item, conv r = .ok item) →
      ((kept.filterMap (fun r => (conv r).toOption)).map (fun it => it.UUID.ValueString))
        = kept.map (fun r => r.UUID) := by
  intro kept
  induction kept with
  | nil => intro _; rfl
  | cons r rest ih =>
    intro h
    obtain ⟨item, hitem⟩ := h r (List.mem_cons_self _ _)
    have hrest := ih (fun x hx => h x (List.mem_cons_of_mem _ hx))
    have hu : item.UUID.ValueString = r.UUID := by
      rw [hcopy r item hitem]; rfl
    have hopt : (conv r).toOption = some item := by rw [hitem]; rfl
    rw [List.filterMap_cons, hopt, List.map_cons, List.map_cons, hrest, hu]

/-- Sorting the conversions of two rearrangements of the kept records gives one
list when the UUIDs are pairwise distinct. -/
theorem sortSlice_filterMap_perm
    (sortSlice : (vmRecordData → vmRecordData → Bool) → List vmRecordData → List vmRecordData)
    (hsort : SortSliceContract sortSlice) (conv : VMRecord → Except String vmRecordData)
    (hcopy : ∀ r item, conv r = .ok item → item.UUID = StringValue r.UUID)
    (kept₁ kept₂ : List VMRecord) (hp : kept₁.Perm kept₂)
    (hconv : ∀ r ∈ kept₁, ∃ item, conv r = .ok item)
    (hnd : (kept₁.map (fun r => r.UUID)).Nodup) :
    sortSlice uuidLess (kept₁.filterMap (fun r => (conv r).toOption))
      = sortSlice uuidLess (kept₂.filterMap (fun r => (conv r).toOption)) := by
  have h₁ := hsort uuidLess (kept₁.filterMap (fun r => (conv r).toOption))
    uuidLess_strictWeakOrder
  have h₂ := hsort uuidLess (kept₂.filterMap (fun r => (conv r).toOption))
    uuidLess_strictWeakOrder
  refine eq_of_perm_of_sorted_uuid _ _ ?_ h₁.2 h₂.2 ?_
  · exact h₁.1.trans ((hp.filterMap _).trans h₂.1.symm)
  · have := (h₁.1.map (fun it : vmRecordData => it.UUID.ValueString)).nodup_iff
    rw [this, map_uuid_filterMap conv hcopy kept₁ hconv]
    exact hnd

/-! ## VM data source: the claims -/

/-- C1. `vmDataSource.Read` projects exactly the matching records.  For every collection
returned by `GetAllRecords` and every filter (each of `name_label`, `uuid` unset or a
string), when no conversion error occurs on the matching records, `Read` sets the state
without diagnostics, and `data_items` corresponds one to one to a rearrangement of the
records that meet every set constraint exactly and are no template, no default
template, have `SnapshotOf = "OpaqueRef:NULL"` and `Domid ≠ 0`: each such record is
converted exactly once and nothing else appears. -/
theorem vmRead_projects_exactly_the_matching_records
    (sortSlice : (vmRecordData → vmRecordData → Bool) → List vmRecordData → List vmRecordData)
    (hsort : SortSliceContract sortSlice)
    (conv : VMRecord → Except String vmRecordData)
    (vmRecords : List (VMRef × VMRecord)) (nameLabel uuid : Option String)
    (hconv : ∀ r ∈ (vmRecords.map Prod.snd).filter (vmSpecMatches nameLabel uuid),
      ∃ item, conv r = .ok item) :
    ∃ kept items,
      vmDataSource.Read (.ok vmRecords) conv sortSlice [] (vmConfig nameLabel uuid)
          emptyReadResponse
        = { Diagnostics := [],
            State := some { UUID := .ofOption uuid, NameLabel := .ofOption nameLabel,
                            DataItems := items } }
      ∧ kept.Perm ((vmRecords.map Prod.snd).filter (fun r => decide
          ((nameLabel = none ∨ nameLabel = some r.NameLabel)
            ∧ (uuid = none ∨ uuid = some r.UUID)
            ∧ r.IsATemplate = false ∧ r.IsDefaultTemplate = false
            ∧ r.SnapshotOf = "OpaqueRef:NULL" ∧ r.Domid ≠ 0)))
      ∧ List.Forall₂ (fun r item => conv r = .ok item) kept items := by
  have hk : vmKeeps (vmConfig nameLabel uuid) = vmSpecMatches nameLabel uuid :=
    funext (vmKeeps_config nameLabel uuid)
  have hread := vmRead_ok_of_converts sortSlice conv vmRecords (vmConfig nameLabel uuid)
    (by rw [hk]; exact hconv)
  rw [hk] at hread
  have hrel := forall₂_filterMap_of_converts conv _ hconv
  have hperm := (hsort uuidLess
    (((vmRecords.map Prod.snd).filter (vmSpecMatches nameLabel uuid)).filterMap
      (fun r => (conv r).toOption)) uuidLess_strictWeakOrder).1
  obtain ⟨kept, hkept, hforall⟩ := forall₂_perm_right _ _ _ _ hrel hperm
  exact ⟨kept, _, hread, hkept, hforall⟩

/-- C3. The `data_items` list that `vmDataSource.Read` writes to the state is in
non-decreasing order of UUID: whenever `Read`, started without a state, sets the state,
`data_items[i].uuid ≤ data_items[j].uuid` for all positions `i < j`. -/
theorem vmRead_data_items_sorted_by_uuid
    (sortSlice : (vmRecordData → vmRecordData → Bool) → List vmRecordData → List vmRecordData)
    (hsort : SortSliceContract sortSlice)
    (getAllRecords : Except String (List (VMRef × VMRecord)))
    (conv : VMRecord → Except String vmRecordData)
    (configDiags : Diagnostics) (data : vmDataSourceModel) (diags : Diagnostics)
    (st : vmDataSourceModel)
    (hst : (vmDataSource.Read getAllRecords conv sortSlice configDiags data
      { Diagnostics := diags, State := none }).State = some st)
    (i j : Nat) (hij : i < j) (hj : j < st.DataItems.length) :
    (st.DataItems.get ⟨i, lt_trans hij hj⟩).UUID.ValueString
      ≤ (st.DataItems.get ⟨j, hj⟩).UUID.ValueString := by
  have hpw : st.DataItems.Pairwise (fun a b => uuidLess b a = false) := by
    unfold vmDataSource.Read at hst
    simp only at hst
    split at hst
    · simp at hst
    · split at hst
      · simp at hst
      · split at hst
        · simp at hst
        · simp only [Option.some.injEq] at hst
          rw [← hst]
          exact (hsort uuidLess _ uuidLess_strictWeakOrder).2
  have := (List.pairwise_iff_get.mp hpw) ⟨i, lt_trans hij hj⟩ ⟨j, hj⟩ hij
  exact (stringLess_eq_false_iff _ _).mp this

/-- For two enumeration orders of one collection the states left by `Read` are
identical when the records that pass the filter have pairwise distinct UUIDs and the
conversion copies the UUID. -/
theorem vmRead_state_perm_of_distinct_kept
    (sortSlice : (vmRecordData → vmRecordData → Bool) → List vmRecordData → List vmRecordData)
    (hsort : SortSliceContract sortSlice)
    (conv : VMRecord → Except String vmRecordData)
    (hcopy : ∀ r item, conv r = .ok item → item.UUID = StringValue r.UUID)
    (order₁ order₂ : List (VMRef × VMRecord)) (hperm : order₁.Perm order₂)
    (nameLabel uuid : Option String)
    (hdistinct : (((order₁.map Prod.snd).filter (vmSpecMatches nameLabel uuid)).map
      (fun r => r.UUID)).Nodup)
    (configDiags : Diagnostics) (resp : ReadResponse) :
    (vmDataSource.Read (.ok order₁) conv sortSlice configDiags (vmConfig nameLabel uuid)
        resp).State
      = (vmDataSource.Read (.ok order₂) conv sortSlice configDiags (vmConfig nameLabel uuid)
        resp).State := by
  have hk : vmKeeps (vmConfig nameLabel uuid) = vmSpecMatches nameLabel uuid :=
    funext (vmKeeps_config nameLabel uuid)
  have hkept : ((order₁.map Prod.snd).filter (vmSpecMatches nameLabel uuid)).Perm
      ((order₂.map Prod.snd).filter (vmSpecMatches nameLabel uuid)) :=
    (hperm.map Prod.snd).filter _
  by_cases hconv : ∀ r ∈ (order₁.map Prod.snd).filter (vmSpecMatches nameLabel uuid),
      ∃ item, conv r = .ok item
  · have hconv₂ : ∀ r ∈ (order₂.map Prod.snd).filter (vmSpecMatches nameLabel uuid),
        ∃ item, conv r = .ok item := fun r hr => hconv r (hkept.mem_iff.mpr hr)
    have heq := sortSlice_filterMap_perm sortSlice hsort conv hcopy _ _ hkept hconv hdistinct
    unfold vmDataSource.Read
    simp only
    split
    · rfl
    · rw [vmReadLoop_of_converts conv _ order₁ [] (by rw [hk]; exact hconv),
        vmReadLoop_of_converts conv _ order₂ [] (by rw [hk]; exact hconv₂), hk]
      simp only [List.nil_append, heq]
  · have hconv₂ : ¬ ∀ r ∈ (order₂.map Prod.snd).filter (vmSpecMatches nameLabel uuid),
        ∃ item, conv r = .ok item := fun h => hconv (fun r hr => h r (hkept.mem_iff.mp hr))
    rw [vmRead_state_of_fails sortSlice conv order₁ configDiags _ resp (by rw [hk]; exact hconv),
      vmRead_state_of_fails sortSlice conv order₂ configDiags _ resp (by rw [hk]; exact hconv₂)]

theorem vmRead_projects_exactly_the_matching_records_witness :
    SortSliceContract
      (insertionSortLessFunc : (vmRecordData → vmRecordData → Bool) → List vmRecordData → _)
    ∧ (∀ r ∈ (samplePool.map Prod.snd).filter (vmSpecMatches (some "vm-A") none),
        ∃ item, updateVMRecordData r = .ok item)
    ∧ ∃ kept items,
      vmDataSource.Read (.ok samplePool) updateVMRecordData insertionSortLessFunc []
          (vmConfig (some "vm-A") none) emptyReadResponse
        = { Diagnostics := [],
            State := some { UUID := .ofOption none, NameLabel := .ofOption (some "vm-A"),
                            DataItems := items } }
      ∧ kept.Perm ((samplePool.map Prod.snd).filter (fun r => decide
          (((some "vm-A" : Option String) = none ∨ some "vm-A" = some r.NameLabel)
            ∧ ((none : Option String) = none ∨ none = some r.UUID)
            ∧ r.IsATemplate = false ∧ r.IsDefaultTemplate = false
            ∧ r.SnapshotOf = "OpaqueRef:NULL" ∧ r.Domid ≠ 0)))
      ∧ List.Forall₂ (fun r item => updateVMRecordData r = .ok item) kept items :=
  ⟨insertionSortLessFunc_contract, fun _ _ => ⟨_, rfl⟩,
    vmRead_projects_exactly_the_matching_records insertionSortLessFunc
      insertionSortLessFunc_contract updateVMRecordData samplePool (some "vm-A") none
      (fun _ _ => ⟨_, rfl⟩)⟩

theorem vmRead_data_items_sorted_by_uuid_witness :
    SortSliceContract
      (insertionSortLessFunc : (vmRecordData → vmRecordData → Bool) → List vmRecordData → _)
    ∧ (vmDataSource.Read (.ok samplePool) updateVMRecordData insertionSortLessFunc []
        (vmConfig none none) { Diagnostics := [], State := none }).State
      = some { UUID := .null, NameLabel := .null, DataItems := [itemOf vmB, itemOf vmA] }
    ∧ ([itemOf vmB, itemOf vmA].get ⟨0, by decide⟩).UUID.ValueString
      ≤ ([itemOf vmB, itemOf vmA].get ⟨1, by decide⟩).UUID.ValueString :=
  ⟨insertionSortLessFunc_contract, by decide,
    vmRead_data_items_sorted_by_uuid insertionSortLessFunc insertionSortLessFunc_contract
      (.ok samplePool) updateVMRecordData [] (vmConfig none none) []
      { UUID := .null, NameLabel := .null, DataItems := [itemOf vmB, itemOf vmA] }
      (by decide) 0 1 (by decide) (by decide)⟩

/-- The records that pass a filter have pairwise distinct UUIDs when the records of
the collection have. -/
theorem nodup_kept_of_nodup (order : List (VMRef × VMRecord)) (p : VMRecord → Bool)
    (h : (order.map (fun e => e.2.UUID)).Nodup) :
    (((order.map Prod.snd).filter p).map (fun r => r.UUID)).Nodup := by
  have hsub : (((order.map Prod.snd).filter p).map (fun r => r.UUID)).Sublist
      ((order.map Prod.snd).map (fun r => r.UUID)) := (List.filter_sublist _).map _
  rw [List.map_map] at hsub
  exact h.sublist hsub

/-- C4. `vmDataSource.Read` is deterministic regardless of the order in which the
remote collection is returned.  For every remote VM collection (a mapping from
references to records whose UUIDs, the durable identifiers of the records, are pairwise
distinct), every filter and any two enumeration orders of that collection, the states
left by `Read`, and so the two `data_items` lists, are identical.  The conversion
copies the UUID of the record into the item. -/
theorem vmRead_independent_of_enumeration_order
    (sortSlice : (vmRecordData → vmRecordData → Bool) → List vmRecordData → List vmRecordData)
    (hsort : SortSliceContract sortSlice)
    (conv : VMRecord → Except String vmRecordData)
    (hcopy : ∀ r item, conv r = .ok item → item.UUID = StringValue r.UUID)
    (order₁ order₂ : List (VMRef × VMRecord)) (hperm : order₁.Perm order₂)
    (hunique : (order₁.map (fun e => e.2.UUID)).Nodup)
    (nameLabel uuid : Option String)
    (configDiags : Diagnostics) (resp : ReadResponse) :
    (vmDataSource.Read (.ok order₁) conv sortSlice configDiags (vmConfig nameLabel uuid)
        resp).State
      = (vmDataSource.Read (.ok order₂) conv sortSlice configDiags (vmConfig nameLabel uuid)
        resp).State :=
  vmRead_state_perm_of_distinct_kept sortSlice hsort conv hcopy order₁ order₂ hperm
    nameLabel uuid (nodup_kept_of_nodup order₁ _ hunique) configDiags resp

theorem vmRead_independent_of_enumeration_order_witness :
    SortSliceContract
      (insertionSortLessFunc : (vmRecordData → vmRecordData → Bool) → List vmRecordData → _)
    ∧ (∀ r item, updateVMRecordData r = .ok item → item.UUID = StringValue r.UUID)
    ∧ samplePool.Perm samplePoolReordered
    ∧ (samplePool.map (fun e => e.2.UUID)).Nodup
    ∧ (vmDataSource.Read (.ok samplePool) updateVMRecordData insertionSortLessFunc []
        (vmConfig none none) emptyReadResponse).State
      = (vmDataSource.Read (.ok samplePoolReordered) updateVMRecordData insertionSortLessFunc
        [] (vmConfig none none) emptyReadResponse).State :=
  ⟨insertionSortLessFunc_contract,
    fun _ _ h => by cases h; rfl,
    by decide, by decide,
    vmRead_independent_of_enumeration_order insertionSortLessFunc
      insertionSortLessFunc_contract updateVMRecordData (fun _ _ h => by cases h; rfl)
      samplePool samplePoolReordered (by decide) (by decide) none none [] emptyReadResponse⟩

theorem hasError_nil : Diagnostics.HasError [] = false := rfl

theorem computed_of_no_error (mapValueFrom : StringMap → TypesMap × Diagnostics)
    (record : NetworkRecord) (data : networkResourceModel)
    (h : (mapValueFrom record.OtherConfig).2.HasError = false) :
    updateNetworkResourceModelComputed mapValueFrom record data
      = ({ NameLabel := data.NameLabel,
           NameDescription := StringValue record.NameDescription,
           OtherConfig := (mapValueFrom record.OtherConfig).1,
           UUID := StringValue record.UUID }, none) := by
  simp [updateNetworkResourceModelComputed, h]

theorem computed_of_error (mapValueFrom : StringMap → TypesMap × Diagnostics)
    (record : NetworkRecord) (data : networkResourceModel)
    (h : (mapValueFrom record.OtherConfig).2.HasError = true) :
    (updateNetworkResourceModelComputed mapValueFrom record data).2
      = some "unable to update data for network other_config" := by
  simp [updateNetworkResourceModelComputed, h]

/-- A state saved by `Create` comes from a created reference whose record was fetched
and converted. -/
theorem create_state_some {σ : Type} (api : NetworkAPI σ)
    (mapValueFrom : StringMap → TypesMap × Diagnostics) (session : σ)
    (plan st : networkResourceModel)
    (h : (networkResource.Create api mapValueFrom session [] plan
      emptyResourceResponse).resp.State = some st) :
    ∃ ref session' record, api.Create session (createPayload plan) = .ok (ref, session')
      ∧ api.GetRecord session' ref = .ok record
      ∧ (mapValueFrom record.OtherConfig).2.HasError = false
      ∧ st = { NameLabel := plan.NameLabel,
               NameDescription := StringValue record.NameDescription,
               OtherConfig := (mapValueFrom record.OtherConfig).1,
               UUID := StringValue record.UUID }
      ∧ (networkResource.Create api mapValueFrom session [] plan
          emptyResourceResponse).remote = session' := by
  cases h₁ : api.Create session (createPayload plan) with
  | error err =>
    simp [networkResource.Create, emptyResourceResponse, hasError_nil, h₁] at h
  | ok created =>
    obtain ⟨ref, session'⟩ := created
    cases h₂ : api.GetRecord session' ref with
    | error err =>
      simp [networkResource.Create, emptyResourceResponse, hasError_nil, h₁, h₂] at h
    | ok record =>
      cases h₃ : (mapValueFrom record.OtherConfig).2.HasError with
      | true =>
        simp [networkResource.Create, emptyResourceResponse, hasError_nil, h₁, h₂,
          computed_of_error mapValueFrom record plan h₃] at h
      | false =>
        refine ⟨ref, session', record, rfl, h₂, h₃, ?_, ?_⟩
        · simp [networkResource.Create, emptyResourceResponse, hasError_nil, h₁, h₂,
            computed_of_no_error mapValueFrom record plan h₃] at h
          exact h.symm
        · simp [networkResource.Create, emptyResourceResponse, hasError_nil, h₁, h₂,
            computed_of_no_error mapValueFrom record plan h₃]

/-- Looking a reference up after the label of `ref` was rewritten. -/
theorem lookup_setLabel (ref ref' : NetworkRef) (v : String) :
    ∀ l : List (NetworkRef × NetworkRecord),
      ((l.map (fun e => if e.1 == ref then (e.1, { e.2 with NameLabel := v }) else e)).find?
          (fun e => e.1 == ref')).map Prod.snd
        = ((l.find? (fun e => e.1 == ref')).map Prod.snd).map
            (fun r => if ref' = ref then { r with NameLabel := v } else r) := by
  intro l
  induction l with
  | nil => rfl
  | cons e rest ih =>
    by_cases h₁ : e.1 = ref
    · by_cases h₂ : e.1 = ref'
      · have h₃ : ref' = ref := h₂.symm.trans h₁
        simp [List.find?_cons, h₁, h₃]
      · have h₃ : ¬ ref = ref' := fun h => h₂ (h₁.trans h)
        simpa [List.find?_cons, h₁, h₃] using ih
    · by_cases h₂ : e.1 = ref'
      · have h₃ : ¬ ref' = ref := fun h => h₁ (h₂.trans h)
        simp [List.find?_cons, h₁, h₂, h₃]
      · simpa [List.find?_cons, h₁, h₂] using ih

/-- A UUID that resolves in the reference store resolves to a reference it holds. -/
theorem lookup_of_getByUUID (s : Store) (uuid : String) (ref : NetworkRef)
    (h : memAPI.GetByUUID s uuid = .ok ref) : ∃ record, s.lookup ref = some record := by
  simp only [memAPI] at h
  cases hf : s.networks.find? (fun e => e.2.UUID == uuid) with
  | none => simp [hf] at h
  | some e =>
    simp only [hf, Except.ok.injEq] at h
    have hmem : e ∈ s.networks := List.mem_of_find?_eq_some hf
    cases hl : s.networks.find? (fun e => e.1 == ref) with
    | none =>
      have := List.find?_eq_none.mp hl e hmem
      simp [h] at this
    | some e' => exact ⟨e'.2, by simp [Store.lookup, hl]⟩

/-! ## Network resource: the claims -/

/-- C5, at the failing input.  The plan sets `other_config = {"mtu": "9000"}`; the
remote stores exactly the record it is sent and assigns the UUID `uuid-0`.  `Create`
succeeds, and the state it saves has the plan's `name_label` and `name_description`
and the assigned UUID, but an empty `other_config`. -/
theorem create_saves_empty_other_config_for_plan_with_other_config :
    planWithOtherConfig.OtherConfig = TypesMap.value [("mtu", "9000")]
    ∧ (networkResource.Create memAPI MapValueFrom emptyStore [] planWithOtherConfig
        emptyResourceResponse).resp
      = { Diagnostics := [],
          State := some { NameLabel := .value "net-1", NameDescription := .value "",
                          OtherConfig := .value [], UUID := .value "uuid-0" } }
    ∧ (networkResource.Create memAPI MapValueFrom emptyStore [] planWithOtherConfig
        emptyResourceResponse).remote.lookup "OpaqueRef:0"
      = some { createPayload planWithOtherConfig with UUID := "uuid-0" } := by
  refine ⟨rfl, by decide, by decide⟩

/-- C6, at the failing input.  For the plan with `other_config = {"mtu": "9000"}` the
record passed to the remote create call has the plan's label and description and an
`OtherConfig` with no entry. -/
theorem create_sends_empty_other_config_for_plan_with_other_config :
    planWithOtherConfig.OtherConfig.Elements = [("mtu", "9000")]
    ∧ (networkResource.Create memAPI MapValueFrom emptyStore [] planWithOtherConfig
        emptyResourceResponse).calls
      = [NetworkCall.Create
          { UUID := "", NameLabel := "net-1", NameDescription := "", OtherConfig := [] },
         NetworkCall.GetRecord "OpaqueRef:0"] := by
  refine ⟨rfl, by decide⟩

/-- C8. `Create` commits no partial state on failure.  For every remote, conversion,
remote state and plan: (1) if the create call fails, `Create` reports the error
"Unable to create network", sets no state and issues no further call; (2) if the
fetch of the created record fails, it reports "Unable to get network record", sets no
state and issues no further call; (3) if the map conversion fails, it reports "Unable
to update the computed fields of NetworkResourceModel" and sets no state; (4) the
state is set if and only if all three steps succeed. -/
theorem create_commits_no_partial_state {σ : Type} (api : NetworkAPI σ)
    (mapValueFrom : StringMap → TypesMap × Diagnostics) (session : σ)
    (plan : networkResourceModel) :
    (∀ err, api.Create session (createPayload plan) = .error err →
      (networkResource.Create api mapValueFrom session [] plan emptyResourceResponse).resp
          = { Diagnostics := [⟨Severity.error, "Unable to create network", err⟩],
              State := none }
      ∧ (networkResource.Create api mapValueFrom session [] plan emptyResourceResponse).calls
          = [NetworkCall.Create (createPayload plan)])
    ∧ (∀ ref session' err, api.Create session (createPayload plan) = .ok (ref, session') →
      api.GetRecord session' ref = .error err →
      (networkResource.Create api mapValueFrom session [] plan emptyResourceResponse).resp
          = { Diagnostics := [⟨Severity.error, "Unable to get network record", err⟩],
              State := none }
      ∧ (networkResource.Create api mapValueFrom session [] plan emptyResourceResponse).calls
          = [NetworkCall.Create (createPayload plan), NetworkCall.GetRecord ref])
    ∧ (∀ ref session' record, api.Create session (createPayload plan) = .ok (ref, session') →
      api.GetRecord session' ref = .ok record →
      (mapValueFrom record.OtherConfig).2.HasError = true →
      (networkResource.Create api mapValueFrom session [] plan emptyResourceResponse).resp
          = { Diagnostics := [⟨Severity.error,
                "Unable to update the computed fields of NetworkResourceModel",
                "unable to update data for network other_config"⟩],
              State := none })
    ∧ ((networkResource.Create api mapValueFrom session [] plan
          emptyResourceResponse).resp.State ≠ none
        ↔ ∃ ref session' record, api.Create session (createPayload plan) = .ok (ref, session')
            ∧ api.GetRecord session' ref = .ok record
            ∧ (mapValueFrom record.OtherConfig).2.HasError = false) := by
  refine ⟨?_, ?_, ?_, ?_⟩
  · intro err h
    simp [networkResource.Create, emptyResourceResponse, hasError_nil,
      Diagnostics.AddError, h]
  · intro ref session' err h₁ h₂
    simp [networkResource.Create, emptyResourceResponse, hasError_nil,
      Diagnostics.AddError, h₁, h₂]
  · intro ref session' record h₁ h₂ h₃
    simp [networkResource.Create, emptyResourceResponse, hasError_nil,
      Diagnostics.AddError, h₁, h₂, computed_of_error mapValueFrom record plan h₃]
  · cases h₁ : api.Create session (createPayload plan) with
    | error err =>
      simp [networkResource.Create, emptyResourceResponse, hasError_nil,
        Diagnostics.AddError, h₁]
    | ok created =>
      obtain ⟨ref, session'⟩ := created
      cases h₂ : api.GetRecord session' ref with
      | error err =>
        simp [networkResource.Create, emptyResourceResponse, hasError_nil,
          Diagnostics.AddError, h₁, h₂]
      | ok record =>
        cases h₃ : (mapValueFrom record.OtherConfig).2.HasError with
        | true =>
          simp [networkResource.Create, emptyResourceResponse, hasError_nil,
            Diagnostics.AddError, h₁, h₂, computed_of_error mapValueFrom record plan h₃, h₃]
        | false =>
          simp [networkResource.Create, emptyResourceResponse, hasError_nil,
            Diagnostics.AddError, h₁, h₂, computed_of_no_error mapValueFrom record plan h₃,
            h₃]
          exact ⟨ref, session', ⟨rfl, rfl⟩, record, h₂, h₃⟩

theorem create_commits_no_partial_state_witness :
    rejectingAPI.Create emptyStore (createPayload planNet1) = .error "NETWORK_CREATE_REJECTED"
    ∧ ((networkResource.Create rejectingAPI MapValueFrom emptyStore [] planNet1
          emptyResourceResponse).resp
        = { Diagnostics :=
              [⟨Severity.error, "Unable to create network", "NETWORK_CREATE_REJECTED"⟩],
            State := none }
      ∧ (networkResource.Create rejectingAPI MapValueFrom emptyStore [] planNet1
          emptyResourceResponse).calls
        = [NetworkCall.Create (createPayload planNet1)])
    ∧ ((networkResource.Create forgetfulAPI MapValueFrom emptyStore [] planNet1
          emptyResourceResponse).resp
        = { Diagnostics := [⟨Severity.error, "Unable to get network record", "HANDLE_INVALID"⟩],
            State := none }
      ∧ (networkResource.Create forgetfulAPI MapValueFrom emptyStore [] planNet1
          emptyResourceResponse).calls
        = [NetworkCall.Create (createPayload planNet1), NetworkCall.GetRecord "OpaqueRef:0"])
    ∧ (networkResource.Create memAPI failingMapValueFrom emptyStore [] planNet1
          emptyResourceResponse).resp
        = { Diagnostics := [⟨Severity.error,
              "Unable to update the computed fields of NetworkResourceModel",
              "unable to update data for network other_config"⟩],
            State := none }
    ∧ (networkResource.Create memAPI MapValueFrom emptyStore [] planNet1
          emptyResourceResponse).resp.State ≠ none :=
  ⟨rfl,
    (create_commits_no_partial_state rejectingAPI MapValueFrom emptyStore planNet1).1
      "NETWORK_CREATE_REJECTED" rfl,
    (create_commits_no_partial_state forgetfulAPI MapValueFrom emptyStore planNet1).2.1
      "OpaqueRef:0" _ "HANDLE_INVALID" rfl rfl,
    (create_commits_no_partial_state memAPI failingMapValueFrom emptyStore planNet1).2.2.1
      "OpaqueRef:0" _ _ rfl rfl rfl,
    (create_commits_no_partial_state memAPI MapValueFrom emptyStore planNet1).2.2.2.mpr
      ⟨"OpaqueRef:0", _, _, rfl, rfl, rfl⟩⟩

/-- C7. Create/Read round trip.  For every valid plan (its required `name_label` is a
known string), against a remote on which the record fetched after the creation carries
the label that was sent and a UUID that resolves to the created reference: when
`Create` saves a state, a `Read` applied at once to that state, against the remote as
`Create` left it, reports nothing and saves a state identical to it in all four
fields, whatever the response held before. -/
theorem create_then_read_round_trip {σ : Type} (api : NetworkAPI σ)
    (mapValueFrom : StringMap → TypesMap × Diagnostics) (session : σ)
    (plan : networkResourceModel) (label : String)
    (hplan : plan.NameLabel = TypesString.value label)
    (hremote : ∀ ref session' record,
      api.Create session (createPayload plan) = .ok (ref, session') →
      api.GetRecord session' ref = .ok record →
      api.GetByUUID session' record.UUID = .ok ref ∧ record.NameLabel = label)
    (st : networkResourceModel)
    (hcreate : (networkResource.Create api mapValueFrom session [] plan
      emptyResourceResponse).resp.State = some st)
    (held : Option networkResourceModel) :
    (networkResource.Read api mapValueFrom
        (networkResource.Create api mapValueFrom session [] plan emptyResourceResponse).remote
        [] st { Diagnostics := [], State := held }).resp
      = { Diagnostics := [], State := some st } := by
  obtain ⟨ref, session', record, h₁, h₂, h₃, hst, hrem⟩ :=
    create_state_some api mapValueFrom session plan st hcreate
  obtain ⟨hres, hlabel⟩ := hremote ref session' record h₁ h₂
  have huuid : st.UUID.ValueString = record.UUID := by rw [hst]; rfl
  rw [hrem]
  simp [networkResource.Read, hasError_nil, huuid, hres, h₂, updateNetworkResourceModel,
    computed_of_no_error mapValueFrom record _ h₃]
  rw [hst, hplan, hlabel]
  rfl

theorem create_then_read_round_trip_witness :
    planNet1.NameLabel = TypesString.value "net-1"
    ∧ (∀ ref session' record,
      memAPI.Create emptyStore (createPayload planNet1) = .ok (ref, session') →
      memAPI.GetRecord session' ref = .ok record →
      memAPI.GetByUUID session' record.UUID = .ok ref ∧ record.NameLabel = "net-1")
    ∧ (networkResource.Create memAPI MapValueFrom emptyStore [] planNet1
        emptyResourceResponse).resp.State
      = some { NameLabel := .value "net-1", NameDescription := .value "",
               OtherConfig := .value [], UUID := .value "uuid-0" }
    ∧ (networkResource.Read memAPI MapValueFrom
        (networkResource.Create memAPI MapValueFrom emptyStore [] planNet1
          emptyResourceResponse).remote
        [] { NameLabel := .value "net-1", NameDescription := .value "",
             OtherConfig := .value [], UUID := .value "uuid-0" }
        { Diagnostics := [], State := none }).resp
      = { Diagnostics := [],
          State := some { NameLabel := .value "net-1", NameDescription := .value "",
                          OtherConfig := .value [], UUID := .value "uuid-0" } } :=
  have hremote : ∀ ref session' record,
      memAPI.Create emptyStore (createPayload planNet1) = .ok (ref, session') →
      memAPI.GetRecord session' ref = .ok record →
      memAPI.GetByUUID session' record.UUID = .ok ref ∧ record.NameLabel = "net-1" := by
    intro ref session' record h₁ h₂
    cases h₁
    cases h₂
    exact ⟨rfl, rfl⟩
  ⟨rfl, hremote, by decide,
    create_then_read_round_trip memAPI MapValueFrom emptyStore planNet1 "net-1" rfl hremote
      _ (by decide) none⟩

/-- C9. `Read` fails loudly when the entity is gone.  For every remote, prior state and
state held by the response: (1) if `GetByUUID` fails on the prior state's id, with any
error, `Read` reports the error "Unable to get network ref" with the remote's message
and leaves the response state exactly as it was, after that one call; (2) if the fetch
of the record fails, it reports "Unable to get network record" and leaves the state as
it was; (3) two failures of the resolution step, whatever their causes, give responses
with the same state, severity and summary. -/
theorem read_fails_loudly_when_entity_is_gone {σ : Type} (api : NetworkAPI σ)
    (mapValueFrom : StringMap → TypesMap × Diagnostics) (session : σ)
    (prior : networkResourceModel) (held : Option networkResourceModel) :
    (∀ err, api.GetByUUID session prior.UUID.ValueString = .error err →
      (networkResource.Read api mapValueFrom session [] prior
          { Diagnostics := [], State := held }).resp
        = { Diagnostics := [⟨Severity.error, "Unable to get network ref", err⟩],
            State := held }
      ∧ (networkResource.Read api mapValueFrom session [] prior
          { Diagnostics := [], State := held }).calls
        = [NetworkCall.GetByUUID prior.UUID.ValueString])
    ∧ (∀ ref err, api.GetByUUID session prior.UUID.ValueString = .ok ref →
      api.GetRecord session ref = .error err →
      (networkResource.Read api mapValueFrom session [] prior
          { Diagnostics := [], State := held }).resp
        = { Diagnostics := [⟨Severity.error, "Unable to get network record", err⟩],
            State := held })
    ∧ (∀ (api' : NetworkAPI σ) (session' : σ) (err err' : String),
      api.GetByUUID session prior.UUID.ValueString = .error err →
      api'.GetByUUID session' prior.UUID.ValueString = .error err' →
      (networkResource.Read api mapValueFrom session [] prior
          { Diagnostics := [], State := held }).resp.State
        = (networkResource.Read api' mapValueFrom session' [] prior
          { Diagnostics := [], State := held }).resp.State
      ∧ (networkResource.Read api mapValueFrom session [] prior
          { Diagnostics := [], State := held }).resp.Diagnostics.map
            (fun d => (d.severity, d.summary))
        = (networkResource.Read api' mapValueFrom session' [] prior
          { Diagnostics := [], State := held }).resp.Diagnostics.map
            (fun d => (d.severity, d.summary))) := by
  refine ⟨?_, ?_, ?_⟩
  · intro err h
    simp [networkResource.Read, hasError_nil, Diagnostics.AddError, h]
  · intro ref err h₁ h₂
    simp [networkResource.Read, hasError_nil, Diagnostics.AddError, h₁, h₂]
  · intro api' session' err err' h h'
    simp [networkResource.Read, hasError_nil, Diagnostics.AddError, h, h']

theorem read_fails_loudly_when_entity_is_gone_witness :
    memAPI.GetByUUID twoNetStore stateGone.UUID.ValueString = .error "UUID_INVALID"
    ∧ ((networkResource.Read memAPI MapValueFrom twoNetStore [] stateGone
          { Diagnostics := [], State := some stateGone }).resp
        = { Diagnostics := [⟨Severity.error, "Unable to get network ref", "UUID_INVALID"⟩],
            State := some stateGone }
      ∧ (networkResource.Read memAPI MapValueFrom twoNetStore [] stateGone
          { Diagnostics := [], State := some stateGone }).calls
        = [NetworkCall.GetByUUID stateGone.UUID.ValueString])
    ∧ (networkResource.Read unreachableRecordAPI MapValueFrom twoNetStore [] stateNet1
          { Diagnostics := [], State := some stateNet1 }).resp
        = { Diagnostics :=
              [⟨Severity.error, "Unable to get network record", "connection reset"⟩],
            State := some stateNet1 } :=
  ⟨rfl,
    (read_fails_loudly_when_entity_is_gone memAPI MapValueFrom twoNetStore stateGone
      (some stateGone)).1 "UUID_INVALID" rfl,
    (read_fails_loudly_when_entity_is_gone unreachableRecordAPI MapValueFrom twoNetStore
      stateNet1 (some stateNet1)).2.1 "OpaqueRef:0" "connection reset" rfl rfl⟩

/-- C10. `Update` changes only the label remotely.  For every content of the reference
store and every plan whose id resolves to a reference `ref`: `Update` issues the calls
`GetByUUID`, `SetNameLabel ref name_label`, `GetRecord ref`, of which `SetNameLabel` is
the only mutating one; afterwards the record under `ref` has the plan's `name_label`
and its former UUID, description and `OtherConfig`; every other reference holds the
record it held before; no reference is added or removed. -/
theorem update_changes_only_the_label_remotely
    (mapValueFrom : StringMap → TypesMap × Diagnostics) (s : Store)
    (plan : networkResourceModel) (held : Option networkResourceModel) (ref : NetworkRef)
    (hresolves : memAPI.GetByUUID s plan.UUID.ValueString = .ok ref) :
    (networkResource.Update memAPI mapValueFrom s [] plan
        { Diagnostics := [], State := held }).calls
      = [NetworkCall.GetByUUID plan.UUID.ValueString,
         NetworkCall.SetNameLabel ref plan.NameLabel.ValueString,
         NetworkCall.GetRecord ref]
    ∧ (networkResource.Update memAPI mapValueFrom s [] plan
        { Diagnostics := [], State := held }).calls.filter NetworkCall.isMutating
      = [NetworkCall.SetNameLabel ref plan.NameLabel.ValueString]
    ∧ (∃ before after, s.lookup ref = some before
        ∧ (networkResource.Update memAPI mapValueFrom s [] plan
            { Diagnostics := [], State := held }).remote.lookup ref = some after
        ∧ after.NameLabel = plan.NameLabel.ValueString
        ∧ after.UUID = before.UUID
        ∧ after.NameDescription = before.NameDescription
        ∧ after.OtherConfig = before.OtherConfig)
    ∧ (∀ ref', ref' ≠ ref →
        (networkResource.Update memAPI mapValueFrom s [] plan
            { Diagnostics := [], State := held }).remote.lookup ref' = s.lookup ref')
    ∧ (networkResource.Update memAPI mapValueFrom s [] plan
        { Diagnostics := [], State := held }).remote.networks.map Prod.fst
      = s.networks.map Prod.fst := by
  obtain ⟨before, hbefore⟩ := lookup_of_getByUUID s _ ref hresolves
  -- the remote state after the label was set
  have hset : memAPI.SetNameLabel s ref plan.NameLabel.ValueString
      = .ok { s with
          networks := s.networks.map (fun e =>
            if e.1 == ref then (e.1, { e.2 with NameLabel := plan.NameLabel.ValueString })
            else e) } := by
    simp [memAPI, hbefore]
  have hlookup : ∀ ref', ({ s with
          networks := s.networks.map (fun e =>
            if e.1 == ref then (e.1, { e.2 with NameLabel := plan.NameLabel.ValueString })
            else e) } : Store).lookup ref'
      = (s.lookup ref').map
          (fun r => if ref' = ref then { r with NameLabel := plan.NameLabel.ValueString }
            else r) := by
    intro ref'
    exact lookup_setLabel ref ref' plan.NameLabel.ValueString s.networks
  have hget : memAPI.GetRecord { s with
          networks := s.networks.map (fun e =>
            if e.1 == ref then (e.1, { e.2 with NameLabel := plan.NameLabel.ValueString })
            else e) } ref
      = .ok { before with NameLabel := plan.NameLabel.ValueString } := by
    simp only [memAPI]
    rw [hlookup ref, hbefore]
    simp
  have hremote : (networkResource.Update memAPI mapValueFrom s [] plan
        { Diagnostics := [], State := held }).remote
      = { s with
          networks := s.networks.map (fun e =>
            if e.1 == ref then (e.1, { e.2 with NameLabel := plan.NameLabel.ValueString })
            else e) } := by
    simp only [networkResource.Update, List.append_nil, hasError_nil, Bool.false_eq_true,
      if_false, hresolves, hset, hget]
    split <;> rfl
  have hcalls : (networkResource.Update memAPI mapValueFrom s [] plan
        { Diagnostics := [], State := held }).calls
      = [NetworkCall.GetByUUID plan.UUID.ValueString,
         NetworkCall.SetNameLabel ref plan.NameLabel.ValueString,
         NetworkCall.GetRecord ref] := by
    simp only [networkResource.Update, List.append_nil, hasError_nil, Bool.false_eq_true,
      if_false, hresolves, hset, hget]
    split <;> rfl
  refine ⟨hcalls, ?_, ?_, ?_, ?_⟩
  · rw [hcalls]; rfl
  · refine ⟨before, { before with NameLabel := plan.NameLabel.ValueString }, hbefore, ?_,
      rfl, rfl, rfl, rfl⟩
    rw [hremote, hlookup ref, hbefore]
    simp
  · intro ref' hne
    rw [hremote, hlookup ref']
    cases s.lookup ref' <;> simp [hne]
  · rw [hremote]
    simp only [List.map_map]
    apply List.map_congr_left
    intro e _
    by_cases h : e.1 = ref <;> simp [h]

theorem update_changes_only_the_label_remotely_witness :
    memAPI.GetByUUID twoNetStore
        ({ stateNet1 with NameLabel := .value "net-2" } : networkResourceModel).UUID.ValueString
      = .ok "OpaqueRef:0"
    ∧ (networkResource.Update memAPI MapValueFrom twoNetStore []
        { stateNet1 with NameLabel := .value "net-2" }
        { Diagnostics := [], State := some stateNet1 }).remote
      = { networks :=
            [("OpaqueRef:0", { UUID := "uuid-0", NameLabel := "net-2", NameDescription := "lab",
                               OtherConfig := [("mtu", "1500")] }),
             ("OpaqueRef:1", { UUID := "uuid-1", NameLabel := "storage",
                               NameDescription := "", OtherConfig := [] })]
          next := 2 }
    ∧ (networkResource.Update memAPI MapValueFrom twoNetStore []
        { stateNet1 with NameLabel := .value "net-2" }
        { Diagnostics := [], State := some stateNet1 }).calls.filter NetworkCall.isMutating
      = [NetworkCall.SetNameLabel "OpaqueRef:0"
          ({ stateNet1 with NameLabel := .value "net-2" } :
            networkResourceModel).NameLabel.ValueString] :=
  ⟨rfl, by decide,
    (update_changes_only_the_label_remotely MapValueFrom twoNetStore
      { stateNet1 with NameLabel := .value "net-2" } (some stateNet1) "OpaqueRef:0" rfl).2.1⟩

/-! ## Further lemmas on the network handlers -/

/-- Setting the label in the reference store: the call succeeds on a reference the
store holds, the record under it is then the former record with the new label, and
every other reference holds its former record. -/
theorem memAPI_setNameLabel (s : Store) (ref : NetworkRef) (v : String)
    (before : NetworkRecord) (h : s.lookup ref = some before) :
    ∃ s', memAPI.SetNameLabel s ref v = .ok s'
      ∧ memAPI.GetRecord s' ref = .ok { before with NameLabel := v }
      ∧ (∀ ref', ref' ≠ ref → s'.lookup ref' = s.lookup ref') := by
  refine ⟨{ s with
      networks := s.networks.map (fun e =>
        if e.1 == ref then (e.1, { e.2 with NameLabel := v }) else e) }, ?_, ?_, ?_⟩
  · simp [memAPI, h]
  · have := lookup_setLabel ref ref v s.networks
    simp only [memAPI, Store.lookup] at h ⊢
    rw [this, h]
    simp
  · intro ref' hne
    have := lookup_setLabel ref ref' v s.networks
    simp only [Store.lookup]
    rw [this]
    cases (s.networks.find? (fun e => e.1 == ref')).map Prod.snd <;> simp [hne]

/-- The response of `Update` when its three remote calls and the conversion
succeed. -/
theorem update_resp_of_steps {σ : Type} (api : NetworkAPI σ)
    (mapValueFrom : StringMap → TypesMap × Diagnostics) (session session' : σ)
    (plan : networkResourceModel) (held : Option networkResourceModel) (ref : NetworkRef)
    (record : NetworkRecord)
    (h₁ : api.GetByUUID session plan.UUID.ValueString = .ok ref)
    (h₂ : api.SetNameLabel session ref plan.NameLabel.ValueString = .ok session')
    (h₃ : api.GetRecord session' ref = .ok record)
    (h₄ : (mapValueFrom record.OtherConfig).2.HasError = false) :
    (networkResource.Update api mapValueFrom session [] plan
        { Diagnostics := [], State := held }).resp
      = { Diagnostics := [],
          State := some { NameLabel := plan.NameLabel,
                          NameDescription := StringValue record.NameDescription,
                          OtherConfig := (mapValueFrom record.OtherConfig).1,
                          UUID := StringValue record.UUID } }
    ∧ (networkResource.Update api mapValueFrom session [] plan
        { Diagnostics := [], State := held }).remote = session' := by
  simp [networkResource.Update, hasError_nil, h₁, h₂, h₃,
    computed_of_no_error mapValueFrom record plan h₄]

theorem hasError_mapValueFrom (m : StringMap) : (MapValueFrom m).2.HasError = false := rfl

/-! ## Network resource: further claims -/

/-- C11, as amended.  State after `Update`.  For every content of the reference store,
every prior state whose id resolves to a record with which it agrees in id,
`name_description` and `other_config` (as a `Read` leaves it), and every plan that
differs from the prior state only in `name_label`: `Update` reports nothing and saves
a state whose `name_label` is the plan's and whose id, `name_description` and
`other_config` are those of the prior state. -/
theorem update_saves_new_label_and_prior_fields (s : Store) (prior : networkResourceModel)
    (newLabel : String) (ref : NetworkRef) (before : NetworkRecord)
    (hresolves : memAPI.GetByUUID s prior.UUID.ValueString = .ok ref)
    (hbefore : s.lookup ref = some before)
    (hsync : prior.UUID = StringValue before.UUID
      ∧ prior.NameDescription = StringValue before.NameDescription
      ∧ prior.OtherConfig = TypesMap.value before.OtherConfig) :
    (networkResource.Update memAPI MapValueFrom s []
        { prior with NameLabel := TypesString.value newLabel }
        { Diagnostics := [], State := some prior }).resp
      = { Diagnostics := [],
          State := some { NameLabel := TypesString.value newLabel,
                          NameDescription := prior.NameDescription,
                          OtherConfig := prior.OtherConfig,
                          UUID := prior.UUID } } := by
  obtain ⟨s', hset, hget, -⟩ := memAPI_setNameLabel s ref newLabel before hbefore
  have h := (update_resp_of_steps memAPI MapValueFrom s s'
    { prior with NameLabel := TypesString.value newLabel } (some prior) ref
    { before with NameLabel := newLabel } hresolves hset hget
    (hasError_mapValueFrom _)).1
  rw [h, hsync.1, hsync.2.1, hsync.2.2]
  rfl

theorem update_saves_new_label_and_prior_fields_witness :
    memAPI.GetByUUID twoNetStore stateNet1.UUID.ValueString = .ok "OpaqueRef:0"
    ∧ twoNetStore.lookup "OpaqueRef:0"
      = some { UUID := "uuid-0", NameLabel := "net-1", NameDescription := "lab",
               OtherConfig := [("mtu", "1500")] }
    ∧ (networkResource.Update memAPI MapValueFrom twoNetStore []
        { stateNet1 with NameLabel := TypesString.value "net-2" }
        { Diagnostics := [], State := some stateNet1 }).resp
      = { Diagnostics := [],
          State := some { NameLabel := TypesString.value "net-2",
                          NameDescription := stateNet1.NameDescription,
                          OtherConfig := stateNet1.OtherConfig,
                          UUID := stateNet1.UUID } } :=
  ⟨rfl, rfl,
    update_saves_new_label_and_prior_fields twoNetStore stateNet1 "net-2" "OpaqueRef:0"
      { UUID := "uuid-0", NameLabel := "net-1", NameDescription := "lab",
        OtherConfig := [("mtu", "1500")] } rfl rfl ⟨rfl, rfl, rfl⟩⟩

/-- C11, as stated, fails.  The prior state `stateStale` has the description `stale`
while the remote record has `lab`; the plan differs from the prior state only in
`name_label`.  `Update` succeeds and saves the description `lab`, not the prior
state's. -/
theorem update_overwrites_stale_description_from_remote :
    stateStale.NameDescription = TypesString.value "stale"
    ∧ changedAttributes stateStale { stateStale with NameLabel := TypesString.value "net-2" }
      = ["name_label"]
    ∧ (networkResource.Update memAPI MapValueFrom twoNetStore []
        { stateStale with NameLabel := TypesString.value "net-2" }
        { Diagnostics := [], State := some stateStale }).resp
      = { Diagnostics := [],
          State := some { NameLabel := TypesString.value "net-2",
                          NameDescription := TypesString.value "lab",
                          OtherConfig := TypesMap.value [("mtu", "1500")],
                          UUID := TypesString.value "uuid-0" } } := by
  refine ⟨rfl, by decide, by decide⟩

/-- C12, at the failing input.  The prior state of the first network of `twoNetStore`
has `name_description = "lab"`; the plan changes it to `new` and nothing else.  The
schema declares no replacement for the user-settable `name_description` and
`other_config`, so the plan is not replaced but handed to `Update`.  `Update` issues
`GetByUUID`, `SetNameLabel` and `GetRecord` only, reports nothing, leaves the remote
store as it was, and saves the remote description `lab` in place of the planned
`new`. -/
theorem description_change_is_updated_in_place_and_not_applied :
    stateNet1.NameDescription = TypesString.value "lab"
    ∧ planNewDescription.NameDescription = TypesString.value "new"
    ∧ changedAttributes stateNet1 planNewDescription = ["name_description"]
    ∧ (∀ e ∈ NetworkSchema, e.1 = "name_description" ∨ e.1 = "other_config" →
        e.2.userSettable = true ∧ e.2.forcesReplacement = false)
    ∧ plannedAction NetworkSchema stateNet1 planNewDescription = PlannedAction.UpdateInPlace
    ∧ (networkResource.Update memAPI MapValueFrom twoNetStore [] planNewDescription
        { Diagnostics := [], State := some stateNet1 }).calls
      = [NetworkCall.GetByUUID "uuid-0", NetworkCall.SetNameLabel "OpaqueRef:0" "net-1",
         NetworkCall.GetRecord "OpaqueRef:0"]
    ∧ (networkResource.Update memAPI MapValueFrom twoNetStore [] planNewDescription
        { Diagnostics := [], State := some stateNet1 }).resp
      = { Diagnostics := [], State := some stateNet1 }
    ∧ (networkResource.Update memAPI MapValueFrom twoNetStore [] planNewDescription
        { Diagnostics := [], State := some stateNet1 }).remote = twoNetStore := by
  refine ⟨rfl, rfl, by decide, by decide, by decide, by decide, by decide, by decide⟩

/-- `updateNetworkResourceModel` writes all four fields from the record. -/
theorem updateNetworkResourceModel_of_no_error
    (mapValueFrom : StringMap → TypesMap × Diagnostics)
    (record : NetworkRecord) (data : networkResourceModel)
    (h : (mapValueFrom record.OtherConfig).2.HasError = false) :
    updateNetworkResourceModel mapValueFrom record data
      = ({ NameLabel := StringValue record.NameLabel,
           NameDescription := StringValue record.NameDescription,
           OtherConfig := (mapValueFrom record.OtherConfig).1,
           UUID := StringValue record.UUID }, none) := by
  simp [updateNetworkResourceModel, computed_of_no_error mapValueFrom record _ h]

/-- The response of `Read` when the id resolves, the record is fetched and the
conversion succeeds: all four fields come from the record. -/
theorem read_resp_of_record {σ : Type} (api : NetworkAPI σ)
    (mapValueFrom : StringMap → TypesMap × Diagnostics) (session : σ)
    (data : networkResourceModel) (held : Option networkResourceModel) (ref : NetworkRef)
    (record : NetworkRecord)
    (h₁ : api.GetByUUID session data.UUID.ValueString = .ok ref)
    (h₂ : api.GetRecord session ref = .ok record)
    (h₃ : (mapValueFrom record.OtherConfig).2.HasError = false) :
    (networkResource.Read api mapValueFrom session [] data
        { Diagnostics := [], State := held }).resp
      = { Diagnostics := [],
          State := some { NameLabel := StringValue record.NameLabel,
                          NameDescription := StringValue record.NameDescription,
                          OtherConfig := (mapValueFrom record.OtherConfig).1,
                          UUID := StringValue record.UUID } } := by
  simp [networkResource.Read, hasError_nil, h₁, h₂,
    updateNetworkResourceModel_of_no_error mapValueFrom record data h₃]

/-- After `Destroy` on the reference a UUID resolves to, the UUID no longer resolves
and the reference holds nothing, when the UUIDs of the store are pairwise distinct. -/
theorem memAPI_destroy (s : Store) (uuid : String) (ref : NetworkRef)
    (hunique : (s.networks.map (fun e => e.2.UUID)).Nodup)
    (hresolves : memAPI.GetByUUID s uuid = .ok ref) :
    ∃ s', memAPI.Destroy s ref = .ok s'
      ∧ memAPI.GetByUUID s' uuid = .error "UUID_INVALID"
      ∧ s'.lookup ref = none := by
  obtain ⟨before, hbefore⟩ := lookup_of_getByUUID s uuid ref hresolves
  refine ⟨{ s with networks := s.networks.filter (fun e => e.1 != ref) }, ?_, ?_, ?_⟩
  · simp [memAPI, hbefore]
  · simp only [memAPI] at hresolves ⊢
    cases hf : s.networks.find? (fun e => e.2.UUID == uuid) with
    | none => simp [hf] at hresolves
    | some e =>
      simp only [hf, Except.ok.injEq] at hresolves
      have hmem : e ∈ s.networks := List.mem_of_find?_eq_some hf
      have huuid : e.2.UUID = uuid := by simpa using List.find?_some hf
      have hnone : (s.networks.filter (fun e => e.1 != ref)).find?
          (fun e => e.2.UUID == uuid) = none := by
        rw [List.find?_eq_none]
        intro e' he' hmatch
        have hmem' : e' ∈ s.networks := List.mem_of_mem_filter he'
        have hkeep : (e'.1 != ref) = true := (List.mem_filter.mp he').2
        have huuid' : e'.2.UUID = uuid := by simpa using hmatch
        have := List.inj_on_of_nodup_map hunique hmem' hmem (huuid'.trans huuid.symm)
        rw [this, hresolves] at hkeep
        simp at hkeep
      simp [hnone]
  · simp only [Store.lookup, Option.map_eq_none', List.find?_eq_none]
    intro e he hmatch
    have hkeep : (e.1 != ref) = true := (List.mem_filter.mp he).2
    have : e.1 = ref := by simpa using hmatch
    rw [this] at hkeep
    simp at hkeep

/-- C13. Delete then Read.  For every content of the reference store in which the UUIDs
are pairwise distinct and every state whose id resolves to a reference `ref`: `Delete`
reports nothing, after the calls `GetByUUID` and `Destroy ref`, and `ref` no longer
holds a record; a `Read` with the same state against the store as `Delete` left it
fails at the resolution step, with the one error diagnostic "Unable to get network
ref", and leaves the response state as it was. -/
theorem delete_then_read_fails_at_resolution
    (mapValueFrom : StringMap → TypesMap × Diagnostics) (s : Store)
    (state : networkResourceModel) (held held' : Option networkResourceModel)
    (ref : NetworkRef)
    (hunique : (s.networks.map (fun e => e.2.UUID)).Nodup)
    (hresolves : memAPI.GetByUUID s state.UUID.ValueString = .ok ref) :
    (networkResource.Delete memAPI s [] state { Diagnostics := [], State := held }).resp
      = { Diagnostics := [], State := held }
    ∧ (networkResource.Delete memAPI s [] state { Diagnostics := [], State := held }).calls
      = [NetworkCall.GetByUUID state.UUID.ValueString, NetworkCall.Destroy ref]
    ∧ (networkResource.Delete memAPI s [] state
        { Diagnostics := [], State := held }).remote.lookup ref = none
    ∧ (networkResource.Read memAPI mapValueFrom
        (networkResource.Delete memAPI s [] state { Diagnostics := [], State := held }).remote
        [] state { Diagnostics := [], State := held' }).resp
      = { Diagnostics := [⟨Severity.error, "Unable to get network ref", "UUID_INVALID"⟩],
          State := held' }
    ∧ (networkResource.Read memAPI mapValueFrom
        (networkResource.Delete memAPI s [] state { Diagnostics := [], State := held }).remote
        [] state { Diagnostics := [], State := held' }).calls
      = [NetworkCall.GetByUUID state.UUID.ValueString] := by
  obtain ⟨s', hdestroy, hgone, hlookup⟩ :=
    memAPI_destroy s state.UUID.ValueString ref hunique hresolves
  have hremote : (networkResource.Delete memAPI s [] state
      { Diagnostics := [], State := held }).remote = s' := by
    simp [networkResource.Delete, hasError_nil, hresolves, hdestroy]
  refine ⟨?_, ?_, ?_, ?_, ?_⟩
  · simp [networkResource.Delete, hasError_nil, hresolves, hdestroy]
  · simp [networkResource.Delete, hasError_nil, hresolves, hdestroy]
  · rw [hremote]; exact hlookup
  · rw [hremote]
    simp [networkResource.Read, hasError_nil, hgone, Diagnostics.AddError]
  · rw [hremote]
    simp [networkResource.Read, hasError_nil, hgone]

theorem delete_then_read_fails_at_resolution_witness :
    (twoNetStore.networks.map (fun e => e.2.UUID)).Nodup
    ∧ memAPI.GetByUUID twoNetStore stateNet1.UUID.ValueString = .ok "OpaqueRef:0"
    ∧ (networkResource.Delete memAPI twoNetStore [] stateNet1
        { Diagnostics := [], State := some stateNet1 }).remote
      = { networks :=
            [("OpaqueRef:1", { UUID := "uuid-1", NameLabel := "storage",
                               NameDescription := "", OtherConfig := [] })]
          next := 2 }
    ∧ (networkResource.Read memAPI MapValueFrom
        (networkResource.Delete memAPI twoNetStore [] stateNet1
          { Diagnostics := [], State := some stateNet1 }).remote
        [] stateNet1 { Diagnostics := [], State := none }).resp
      = { Diagnostics := [⟨Severity.error, "Unable to get network ref", "UUID_INVALID"⟩],
          State := none } :=
  ⟨by decide, rfl, by decide,
    (delete_then_read_fails_at_resolution MapValueFrom twoNetStore stateNet1 (some stateNet1)
      none "OpaqueRef:0" (by decide) rfl).2.2.2.1⟩

/-- C14. Import equals Create+Read.  `ImportState` writes the identifier it is given,
as it is, into `id` of a state whose other fields are null.  For every network created
by `Create` (valid plan; the remote returns the label it was sent and resolves the
UUID of the fetched record to the created reference): importing the UUID of the
saved state and then running `Read`, and running `Read` on the state saved by
`Create`, both report nothing and save one and the same state, the one `Create`
saved. -/
theorem import_then_read_equals_create_then_read {σ : Type} (api : NetworkAPI σ)
    (mapValueFrom : StringMap → TypesMap × Diagnostics) (session : σ)
    (plan : networkResourceModel) (label : String)
    (hplan : plan.NameLabel = TypesString.value label)
    (hremote : ∀ ref session' record,
      api.Create session (createPayload plan) = .ok (ref, session') →
      api.GetRecord session' ref = .ok record →
      api.GetByUUID session' record.UUID = .ok ref ∧ record.NameLabel = label)
    (st : networkResourceModel)
    (hcreate : (networkResource.Create api mapValueFrom session [] plan
      emptyResourceResponse).resp.State = some st) :
    (∀ id : String, networkResource.ImportState id emptyResourceResponse
      = { Diagnostics := [],
          State := some { NameLabel := .null, NameDescription := .null, OtherConfig := .null,
                          UUID := TypesString.value id } })
    ∧ (networkResource.Read api mapValueFrom
        (networkResource.Create api mapValueFrom session [] plan emptyResourceResponse).remote
        []
        { NameLabel := .null, NameDescription := .null, OtherConfig := .null,
          UUID := TypesString.value st.UUID.ValueString }
        (networkResource.ImportState st.UUID.ValueString emptyResourceResponse)).resp
      = { Diagnostics := [], State := some st }
    ∧ (networkResource.Read api mapValueFrom
        (networkResource.Create api mapValueFrom session [] plan emptyResourceResponse).remote
        [] st { Diagnostics := [], State := some st }).resp
      = { Diagnostics := [], State := some st } := by
  obtain ⟨ref, session', record, h₁, h₂, h₃, hst, hrem⟩ :=
    create_state_some api mapValueFrom session plan st hcreate
  obtain ⟨hres, hlabel⟩ := hremote ref session' record h₁ h₂
  have huuid : st.UUID.ValueString = record.UUID := by rw [hst]; rfl
  have hstate : networkResourceModel.mk (StringValue record.NameLabel)
      (StringValue record.NameDescription) (mapValueFrom record.OtherConfig).1
      (StringValue record.UUID) = st := by
    rw [hst, hplan, hlabel]; rfl
  refine ⟨fun id => rfl, ?_, ?_⟩
  · rw [hrem]
    have hres' : api.GetByUUID session'
        (networkResourceModel.mk .null .null .null
          (TypesString.value st.UUID.ValueString)).UUID.ValueString = .ok ref := by
      show api.GetByUUID session' st.UUID.ValueString = .ok ref
      rw [huuid]; exact hres
    have := read_resp_of_record api mapValueFrom session' _
      (some { NameLabel := .null, NameDescription := .null, OtherConfig := .null,
              UUID := TypesString.value st.UUID.ValueString }) ref record hres' h₂ h₃
    rw [hstate] at this
    exact this
  · rw [hrem]
    have hres' : api.GetByUUID session' st.UUID.ValueString = .ok ref := by
      rw [huuid]; exact hres
    have := read_resp_of_record api mapValueFrom session' st (some st) ref record hres' h₂ h₃
    rw [hstate] at this
    exact this

theorem import_then_read_equals_create_then_read_witness :
    planNet1.NameLabel = TypesString.value "net-1"
    ∧ (∀ ref session' record,
      memAPI.Create emptyStore (createPayload planNet1) = .ok (ref, session') →
      memAPI.GetRecord session' ref = .ok record →
      memAPI.GetByUUID session' record.UUID = .ok ref ∧ record.NameLabel = "net-1")
    ∧ (networkResource.Create memAPI MapValueFrom emptyStore [] planNet1
        emptyResourceResponse).resp.State
      = some { NameLabel := .value "net-1", NameDescription := .value "",
               OtherConfig := .value [], UUID := .value "uuid-0" }
    ∧ (networkResource.Read memAPI MapValueFrom
        (networkResource.Create memAPI MapValueFrom emptyStore [] planNet1
          emptyResourceResponse).remote
        []
        { NameLabel := .null, NameDescription := .null, OtherConfig := .null,
          UUID := TypesString.value "uuid-0" }
        (networkResource.ImportState "uuid-0" emptyResourceResponse)).resp
      = { Diagnostics := [],
          State := some { NameLabel := .value "net-1", NameDescription := .value "",
                          OtherConfig := .value [], UUID := .value "uuid-0" } } :=
  have hremote : ∀ ref session' record,
      memAPI.Create emptyStore (createPayload planNet1) = .ok (ref, session') →
      memAPI.GetRecord session' ref = .ok record →
      memAPI.GetByUUID session' record.UUID = .ok ref ∧ record.NameLabel = "net-1" := by
    intro ref session' record h₁ h₂
    cases h₁
    cases h₂
    exact ⟨rfl, rfl⟩
  ⟨rfl, hremote, by decide,
    (import_then_read_equals_create_then_read memAPI MapValueFrom emptyStore planNet1 "net-1"
      rfl hremote
      { NameLabel := .value "net-1", NameDescription := .value "",
        OtherConfig := .value [], UUID := .value "uuid-0" } (by decide)).2.1⟩

/-- Every call of `Create` is the create call or a fetch. -/
theorem create_calls {σ : Type} (api : NetworkAPI σ)
    (mapValueFrom : StringMap → TypesMap × Diagnostics) (session : σ)
    (planDiags : Diagnostics) (plan : networkResourceModel) (resp : ResourceResponse)
    (c : NetworkCall)
    (hc : c ∈ (networkResource.Create api mapValueFrom session planDiags plan resp).calls) :
    c = NetworkCall.Create (createPayload plan) ∨ ∃ ref, c = NetworkCall.GetRecord ref := by
  unfold networkResource.Create at hc
  simp only at hc
  split at hc
  · simp at hc
  · split at hc
    · simp only [List.mem_singleton] at hc
      exact Or.inl hc
    · rename_i networkRef _ _
      have key : c ∈ [NetworkCall.Create (createPayload plan),
          NetworkCall.GetRecord networkRef] := by
        split at hc
        · exact hc
        · split at hc <;> exact hc
      simp only [List.mem_cons, List.mem_singleton, List.not_mem_nil, or_false] at key
      rcases key with h | h
      · exact Or.inl h
      · exact Or.inr ⟨networkRef, h⟩

/-- C18. `Create` is not atomic with respect to the remote store.  (1) For every remote
on which the create call succeeds and the following fetch fails, `Create` reports the
error, saves no state, and leaves the remote in the state the create call produced.
(2) Such a case exists: on `forgetfulAPI`, starting from the empty store, `Create`
fails with "Unable to get network record" and no state while the store now holds the
new network.  (3) No call of `Create` is ever a `Destroy`. -/
theorem create_is_not_atomic :
    (∀ (σ : Type) (api : NetworkAPI σ) (mapValueFrom : StringMap → TypesMap × Diagnostics)
        (session session' : σ) (plan : networkResourceModel) (ref : NetworkRef) (err : String),
        api.Create session (createPayload plan) = .ok (ref, session') →
        api.GetRecord session' ref = .error err →
        (networkResource.Create api mapValueFrom session [] plan emptyResourceResponse).resp
            = { Diagnostics := [⟨Severity.error, "Unable to get network record", err⟩],
                State := none }
        ∧ (networkResource.Create api mapValueFrom session [] plan
            emptyResourceResponse).remote = session')
    ∧ (emptyStore.networks = []
        ∧ (networkResource.Create forgetfulAPI MapValueFrom emptyStore [] planNet1
            emptyResourceResponse).resp
          = { Diagnostics :=
                [⟨Severity.error, "Unable to get network record", "HANDLE_INVALID"⟩],
              State := none }
        ∧ (networkResource.Create forgetfulAPI MapValueFrom emptyStore [] planNet1
            emptyResourceResponse).remote.networks
          = [("OpaqueRef:0", { UUID := "uuid-0", NameLabel := "net-1",
                               NameDescription := "", OtherConfig := [] })]
        ∧ (networkResource.Create forgetfulAPI MapValueFrom emptyStore [] planNet1
            emptyResourceResponse).calls
          = [NetworkCall.Create (createPayload planNet1), NetworkCall.GetRecord "OpaqueRef:0"])
    ∧ (∀ (σ : Type) (api : NetworkAPI σ) (mapValueFrom : StringMap → TypesMap × Diagnostics)
        (session : σ) (planDiags : Diagnostics) (plan : networkResourceModel)
        (resp : ResourceResponse) (ref : NetworkRef),
        NetworkCall.Destroy ref
          ∉ (networkResource.Create api mapValueFrom session planDiags plan resp).calls) := by
  refine ⟨?_, ⟨rfl, by decide, by decide, by decide⟩, ?_⟩
  · intro σ api mapValueFrom session session' plan ref err h₁ h₂
    simp [networkResource.Create, emptyResourceResponse, hasError_nil, Diagnostics.AddError,
      h₁, h₂]
  · intro σ api mapValueFrom session planDiags plan resp ref hmem
    rcases create_calls api mapValueFrom session planDiags plan resp _ hmem with h | ⟨r, h⟩
    · cases h
    · cases h

theorem create_is_not_atomic_witness :
    forgetfulAPI.Create emptyStore (createPayload planWithOtherConfig)
      = .ok ("OpaqueRef:0",
          { networks := [("OpaqueRef:0", { UUID := "uuid-0", NameLabel := "net-1",
                                           NameDescription := "", OtherConfig := [] })]
            next := 1 })
    ∧ forgetfulAPI.GetRecord
        { networks := [("OpaqueRef:0", { UUID := "uuid-0", NameLabel := "net-1",
                                         NameDescription := "", OtherConfig := [] })]
          next := 1 } "OpaqueRef:0" = .error "HANDLE_INVALID"
    ∧ (networkResource.Create forgetfulAPI MapValueFrom emptyStore [] planWithOtherConfig
          emptyResourceResponse).resp
        = { Diagnostics := [⟨Severity.error, "Unable to get network record", "HANDLE_INVALID"⟩],
            State := none }
    ∧ (networkResource.Create forgetfulAPI MapValueFrom emptyStore [] planWithOtherConfig
          emptyResourceResponse).remote
        = { networks := [("OpaqueRef:0", { UUID := "uuid-0", NameLabel := "net-1",
                                           NameDescription := "", OtherConfig := [] })]
            next := 1 } :=
  ⟨rfl, rfl,
    create_is_not_atomic.1 Store forgetfulAPI MapValueFrom emptyStore _ planWithOtherConfig
      "OpaqueRef:0" "HANDLE_INVALID" rfl rfl⟩

theorem updateNetworkResourceModel_of_error
    (mapValueFrom : StringMap → TypesMap × Diagnostics)
    (record : NetworkRecord) (data : networkResourceModel)
    (h : (mapValueFrom record.OtherConfig).2.HasError = true) :
    (updateNetworkResourceModel mapValueFrom record data).2
      = some "unable to update data for network other_config" := by
  simp [updateNetworkResourceModel, computed_of_error mapValueFrom record _ h]

/-- C15. Error wrapping in the network handlers.  For every remote, conversion, remote
state, model and held response state, each failing step of `Create` (create call,
fetch, conversion), `Read` (resolution, fetch, conversion), `Update` (resolution,
`SetNameLabel`, fetch, conversion) and `Delete` (resolution, `Destroy`) leaves exactly
one diagnostic: of error severity, with the fixed summary of that step, and with the
remote's error message as its detail; for a failed conversion the detail is the
message of `updateNetworkResourceModelComputed`, which names the field
`other_config`. -/
theorem network_errors_are_wrapped_with_step_label {σ : Type} (api : NetworkAPI σ)
    (mapValueFrom : StringMap → TypesMap × Diagnostics) (session : σ)
    (data : networkResourceModel) (held : Option networkResourceModel) :
    (∀ err, api.Create session (createPayload data) = .error err →
        (networkResource.Create api mapValueFrom session [] data
          { Diagnostics := [], State := held }).resp.Diagnostics
          = [⟨Severity.error, "Unable to create network", err⟩])
    ∧
    (∀ ref session' err, api.Create session (createPayload data) = .ok (ref, session') →
        api.GetRecord session' ref = .error err →
        (networkResource.Create api mapValueFrom session [] data
          { Diagnostics := [], State := held }).resp.Diagnostics
          = [⟨Severity.error, "Unable to get network record", err⟩])
    ∧
    (∀ ref session' record, api.Create session (createPayload data) = .ok (ref, session') →
        api.GetRecord session' ref = .ok record →
        (mapValueFrom record.OtherConfig).2.HasError = true →
        (networkResource.Create api mapValueFrom session [] data
          { Diagnostics := [], State := held }).resp.Diagnostics
          = [⟨Severity.error, "Unable to update the computed fields of NetworkResourceModel", "unable to update data for network other_config"⟩])
    ∧
    (∀ err, api.GetByUUID session data.UUID.ValueString = .error err →
        (networkResource.Read api mapValueFrom session [] data
          { Diagnostics := [], State := held }).resp.Diagnostics
          = [⟨Severity.error, "Unable to get network ref", err⟩])
    ∧
    (∀ ref err, api.GetByUUID session data.UUID.ValueString = .ok ref →
        api.GetRecord session ref = .error err →
        (networkResource.Read api mapValueFrom session [] data
          { Diagnostics := [], State := held }).resp.Diagnostics
          = [⟨Severity.error, "Unable to get network record", err⟩])
    ∧
    (∀ ref record, api.GetByUUID session data.UUID.ValueString = .ok ref →
        api.GetRecord session ref = .ok record →
        (mapValueFrom record.OtherConfig).2.HasError = true →
        (networkResource.Read api mapValueFrom session [] data
          { Diagnostics := [], State := held }).resp.Diagnostics
          = [⟨Severity.error, "Unable to update the fields of NetworkResourceModel", "unable to update data for network other_config"⟩])
    ∧
    (∀ err, api.GetByUUID session data.UUID.ValueString = .error err →
        (networkResource.Update api mapValueFrom session [] data
          { Diagnostics := [], State := held }).resp.Diagnostics
          = [⟨Severity.error, "Unable to get network ref", err⟩])
    ∧
    (∀ ref err, api.GetByUUID session data.UUID.ValueString = .ok ref →
        api.SetNameLabel session ref data.NameLabel.ValueString = .error err →
        (networkResource.Update api mapValueFrom session [] data
          { Diagnostics := [], State := held }).resp.Diagnostics
          = [⟨Severity.error, "Unable to set name label of network", err⟩])
    ∧
    (∀ ref session' err, api.GetByUUID session data.UUID.ValueString = .ok ref →
        api.SetNameLabel session ref data.NameLabel.ValueString = .ok session' →
        api.GetRecord session' ref = .error err →
        (networkResource.Update api mapValueFrom session [] data
          { Diagnostics := [], State := held }).resp.Diagnostics
          = [⟨Severity.error, "Unable to get network record", err⟩])
    ∧
    (∀ ref session' record, api.GetByUUID session data.UUID.ValueString = .ok ref →
        api.SetNameLabel session ref data.NameLabel.ValueString = .ok session' →
        api.GetRecord session' ref = .ok record →
        (mapValueFrom record.OtherConfig).2.HasError = true →
        (networkResource.Update api mapValueFrom session [] data
          { Diagnostics := [], State := held }).resp.Diagnostics
          = [⟨Severity.error, "Unable to update the computed fields of network resource model", "unable to update data for network other_config"⟩])
    ∧
    (∀ err, api.GetByUUID session data.UUID.ValueString = .error err →
        (networkResource.Delete api session [] data
          { Diagnostics := [], State := held }).resp.Diagnostics
          = [⟨Severity.error, "Unable to get network ref", err⟩])
    ∧
    (∀ ref err, api.GetByUUID session data.UUID.ValueString = .ok ref →
        api.Destroy session ref = .error err →
        (networkResource.Delete api session [] data
          { Diagnostics := [], State := held }).resp.Diagnostics
          = [⟨Severity.error, "Unable to destroy network", err⟩]) := by
  refine ⟨?_, ?_, ?_, ?_, ?_, ?_, ?_, ?_, ?_, ?_, ?_, ?_⟩
  · intro err h
    simp [networkResource.Create, emptyResourceResponse, hasError_nil, Diagnostics.AddError, h]
  · intro ref session' err h₁ h₂
    simp [networkResource.Create, hasError_nil, Diagnostics.AddError, h₁, h₂]
  · intro ref session' record h₁ h₂ h₃
    simp [networkResource.Create, hasError_nil, Diagnostics.AddError, h₁, h₂,
      computed_of_error mapValueFrom record data h₃]
  · intro err h
    simp [networkResource.Read, hasError_nil, Diagnostics.AddError, h]
  · intro ref err h₁ h₂
    simp [networkResource.Read, hasError_nil, Diagnostics.AddError, h₁, h₂]
  · intro ref record h₁ h₂ h₃
    simp [networkResource.Read, hasError_nil, Diagnostics.AddError, h₁, h₂,
      updateNetworkResourceModel_of_error mapValueFrom record data h₃]
  · intro err h
    simp [networkResource.Update, hasError_nil, Diagnostics.AddError, h]
  · intro ref err h₁ h₂
    simp [networkResource.Update, hasError_nil, Diagnostics.AddError, h₁, h₂]
  · intro ref session' err h₁ h₂ h₃
    simp [networkResource.Update, hasError_nil, Diagnostics.AddError, h₁, h₂, h₃]
  · intro ref session' record h₁ h₂ h₃ h₄
    simp [networkResource.Update, hasError_nil, Diagnostics.AddError, h₁, h₂, h₃,
      computed_of_error mapValueFrom record data h₄]
  · intro err h
    simp [networkResource.Delete, hasError_nil, Diagnostics.AddError, h]
  · intro ref err h₁ h₂
    simp [networkResource.Delete, hasError_nil, Diagnostics.AddError, h₁, h₂]

theorem network_errors_are_wrapped_with_step_label_witness :
    (networkResource.Create rejectingAPI MapValueFrom emptyStore [] planNet1
        { Diagnostics := [], State := none }).resp.Diagnostics
      = [⟨Severity.error, "Unable to create network", "NETWORK_CREATE_REJECTED"⟩]
    ∧
    (networkResource.Create forgetfulAPI MapValueFrom emptyStore [] planNet1
        { Diagnostics := [], State := none }).resp.Diagnostics
      = [⟨Severity.error, "Unable to get network record", "HANDLE_INVALID"⟩]
    ∧
    (networkResource.Create memAPI failingMapValueFrom emptyStore [] planNet1
        { Diagnostics := [], State := none }).resp.Diagnostics
      = [⟨Severity.error, "Unable to update the computed fields of NetworkResourceModel", "unable to update data for network other_config"⟩]
    ∧
    (networkResource.Read memAPI MapValueFrom twoNetStore [] stateGone
        { Diagnostics := [], State := (some stateGone) }).resp.Diagnostics
      = [⟨Severity.error, "Unable to get network ref", "UUID_INVALID"⟩]
    ∧
    (networkResource.Read unreachableRecordAPI MapValueFrom twoNetStore [] stateNet1
        { Diagnostics := [], State := (some stateNet1) }).resp.Diagnostics
      = [⟨Severity.error, "Unable to get network record", "connection reset"⟩]
    ∧
    (networkResource.Read memAPI failingMapValueFrom twoNetStore [] stateNet1
        { Diagnostics := [], State := (some stateNet1) }).resp.Diagnostics
      = [⟨Severity.error, "Unable to update the fields of NetworkResourceModel", "unable to update data for network other_config"⟩]
    ∧
    (networkResource.Update memAPI MapValueFrom twoNetStore [] stateGone
        { Diagnostics := [], State := (some stateGone) }).resp.Diagnostics
      = [⟨Severity.error, "Unable to get network ref", "UUID_INVALID"⟩]
    ∧
    (networkResource.Update readOnlyAPI MapValueFrom twoNetStore [] planRename
        { Diagnostics := [], State := (some stateNet1) }).resp.Diagnostics
      = [⟨Severity.error, "Unable to set name label of network", "OPERATION_NOT_ALLOWED"⟩]
    ∧
    (networkResource.Update unreachableRecordAPI MapValueFrom twoNetStore [] planRename
        { Diagnostics := [], State := (some stateNet1) }).resp.Diagnostics
      = [⟨Severity.error, "Unable to get network record", "connection reset"⟩]
    ∧
    (networkResource.Update memAPI failingMapValueFrom twoNetStore [] planRename
        { Diagnostics := [], State := (some stateNet1) }).resp.Diagnostics
      = [⟨Severity.error, "Unable to update the computed fields of network resource model", "unable to update data for network other_config"⟩]
    ∧
    (networkResource.Delete memAPI twoNetStore [] stateGone
        { Diagnostics := [], State := (some stateGone) }).resp.Diagnostics
      = [⟨Severity.error, "Unable to get network ref", "UUID_INVALID"⟩]
    ∧
    (networkResource.Delete readOnlyAPI twoNetStore [] stateNet1
        { Diagnostics := [], State := (some stateNet1) }).resp.Diagnostics
      = [⟨Severity.error, "Unable to destroy network", "OPERATION_NOT_ALLOWED"⟩] :=
  ⟨(network_errors_are_wrapped_with_step_label rejectingAPI MapValueFrom emptyStore planNet1
      none).1 "NETWORK_CREATE_REJECTED" rfl,
    (network_errors_are_wrapped_with_step_label forgetfulAPI MapValueFrom emptyStore planNet1
      none).2.1 "OpaqueRef:0" _ "HANDLE_INVALID" rfl rfl,
    (network_errors_are_wrapped_with_step_label memAPI failingMapValueFrom emptyStore planNet1
      none).2.2.1 "OpaqueRef:0" _ _ rfl rfl rfl,
    (network_errors_are_wrapped_with_step_label memAPI MapValueFrom twoNetStore stateGone
      (some stateGone)).2.2.2.1 "UUID_INVALID" rfl,
    (network_errors_are_wrapped_with_step_label unreachableRecordAPI MapValueFrom twoNetStore stateNet1
      (some stateNet1)).2.2.2.2.1 "OpaqueRef:0" "connection reset" rfl rfl,
    (network_errors_are_wrapped_with_step_label memAPI failingMapValueFrom twoNetStore stateNet1
      (some stateNet1)).2.2.2.2.2.1 "OpaqueRef:0" _ rfl rfl rfl,
    (network_errors_are_wrapped_with_step_label memAPI MapValueFrom twoNetStore stateGone
      (some stateGone)).2.2.2.2.2.2.1 "UUID_INVALID" rfl,
    (network_errors_are_wrapped_with_step_label readOnlyAPI MapValueFrom twoNetStore planRename
      (some stateNet1)).2.2.2.2.2.2.2.1 "OpaqueRef:0" "OPERATION_NOT_ALLOWED" rfl rfl,
    (network_errors_are_wrapped_with_step_label unreachableRecordAPI MapValueFrom twoNetStore planRename
      (some stateNet1)).2.2.2.2.2.2.2.2.1 "OpaqueRef:0" _ "connection reset" rfl rfl rfl,
    (network_errors_are_wrapped_with_step_label memAPI failingMapValueFrom twoNetStore planRename
      (some stateNet1)).2.2.2.2.2.2.2.2.2.1 "OpaqueRef:0" _ _ rfl rfl rfl rfl,
    (network_errors_are_wrapped_with_step_label memAPI MapValueFrom twoNetStore stateGone
      (some stateGone)).2.2.2.2.2.2.2.2.2.2.1 "UUID_INVALID" rfl,
    (network_errors_are_wrapped_with_step_label readOnlyAPI MapValueFrom twoNetStore stateNet1
      (some stateNet1)).2.2.2.2.2.2.2.2.2.2.2 "OpaqueRef:0" "OPERATION_NOT_ALLOWED" rfl rfl⟩

/-! ## VM data source: further claims -/

/-- With both constraints unset the filter is the four implicit exclusions. -/
theorem vmSpecMatches_unset (r : VMRecord) :
    vmSpecMatches none none r = true
      ↔ r.IsATemplate = false ∧ r.IsDefaultTemplate = false
        ∧ r.SnapshotOf = "OpaqueRef:NULL" ∧ r.Domid ≠ 0 := by
  simp [vmSpecMatches]

/-- C16, as amended.  `Read` with no constraints excludes by template flags, by
`SnapshotOf` and by `Domid`.  For every remote collection, when no conversion error
occurs on the kept records: `Read` sets the state, `data_items` are the conversions of
a list `kept` of records of the collection; no record of `kept` has `IsATemplate` or
`IsDefaultTemplate` set, a `SnapshotOf` other than `OpaqueRef:NULL`, or `Domid = 0`;
and every record of the collection that is none of these is in `kept`. -/
theorem vmRead_unconstrained_excludes_by_snapshotOf_and_domid
    (sortSlice : (vmRecordData → vmRecordData → Bool) → List vmRecordData → List vmRecordData)
    (hsort : SortSliceContract sortSlice)
    (conv : VMRecord → Except String vmRecordData)
    (vmRecords : List (VMRef × VMRecord))
    (hconv : ∀ e ∈ vmRecords, e.2.IsATemplate = false → e.2.IsDefaultTemplate = false →
      e.2.SnapshotOf = "OpaqueRef:NULL" → e.2.Domid ≠ 0 → ∃ item, conv e.2 = .ok item) :
    ∃ kept items,
      vmDataSource.Read (.ok vmRecords) conv sortSlice [] (vmConfig none none)
          emptyReadResponse
        = { Diagnostics := [],
            State := some { UUID := .null, NameLabel := .null, DataItems := items } }
      ∧ List.Forall₂ (fun r item => conv r = .ok item) kept items
      ∧ (∀ r ∈ kept, r ∈ vmRecords.map Prod.snd
          ∧ r.IsATemplate = false ∧ r.IsDefaultTemplate = false
          ∧ r.SnapshotOf = "OpaqueRef:NULL" ∧ r.Domid ≠ 0)
      ∧ (∀ e ∈ vmRecords, e.2.IsATemplate = false → e.2.IsDefaultTemplate = false →
          e.2.SnapshotOf = "OpaqueRef:NULL" → e.2.Domid ≠ 0 → e.2 ∈ kept) := by
  have hk : vmKeeps (vmConfig none none) = vmSpecMatches none none :=
    funext (vmKeeps_config none none)
  have hconv' : ∀ r ∈ (vmRecords.map Prod.snd).filter (vmSpecMatches none none),
      ∃ item, conv r = .ok item := by
    intro r hr
    obtain ⟨hmem, hmatch⟩ := List.mem_filter.mp hr
    obtain ⟨e, he, rfl⟩ := List.mem_map.mp hmem
    obtain ⟨h₁, h₂, h₃, h₄⟩ := (vmSpecMatches_unset e.2).mp hmatch
    exact hconv e he h₁ h₂ h₃ h₄
  have hread := vmRead_ok_of_converts sortSlice conv vmRecords (vmConfig none none)
    (by rw [hk]; exact hconv')
  rw [hk] at hread
  have hrel := forall₂_filterMap_of_converts conv _ hconv'
  have hperm := (hsort uuidLess
    (((vmRecords.map Prod.snd).filter (vmSpecMatches none none)).filterMap
      (fun r => (conv r).toOption)) uuidLess_strictWeakOrder).1
  obtain ⟨kept, hkept, hforall⟩ := forall₂_perm_right _ _ _ _ hrel hperm
  refine ⟨kept, _, hread, hforall, ?_, ?_⟩
  · intro r hr
    obtain ⟨hmem, hmatch⟩ := List.mem_filter.mp (hkept.mem_iff.mp hr)
    exact ⟨hmem, (vmSpecMatches_unset r).mp hmatch⟩
  · intro e he h₁ h₂ h₃ h₄
    apply hkept.mem_iff.mpr
    exact List.mem_filter.mpr ⟨List.mem_map.mpr ⟨e, he, rfl⟩,
      (vmSpecMatches_unset e.2).mpr ⟨h₁, h₂, h₃, h₄⟩⟩

theorem vmRead_unconstrained_excludes_by_snapshotOf_and_domid_witness :
    SortSliceContract
      (insertionSortLessFunc : (vmRecordData → vmRecordData → Bool) → List vmRecordData → _)
    ∧ (∀ e ∈ samplePool, e.2.IsATemplate = false → e.2.IsDefaultTemplate = false →
        e.2.SnapshotOf = "OpaqueRef:NULL" → e.2.Domid ≠ 0 →
        ∃ item, updateVMRecordData e.2 = .ok item)
    ∧ ∃ kept items,
      vmDataSource.Read (.ok samplePool) updateVMRecordData insertionSortLessFunc []
          (vmConfig none none) emptyReadResponse
        = { Diagnostics := [],
            State := some { UUID := .null, NameLabel := .null, DataItems := items } }
      ∧ List.Forall₂ (fun r item => updateVMRecordData r = .ok item) kept items
      ∧ (∀ r ∈ kept, r ∈ samplePool.map Prod.snd
          ∧ r.IsATemplate = false ∧ r.IsDefaultTemplate = false
          ∧ r.SnapshotOf = "OpaqueRef:NULL" ∧ r.Domid ≠ 0)
      ∧ (∀ e ∈ samplePool, e.2.IsATemplate = false → e.2.IsDefaultTemplate = false →
          e.2.SnapshotOf = "OpaqueRef:NULL" → e.2.Domid ≠ 0 → e.2 ∈ kept) :=
  ⟨insertionSortLessFunc_contract, fun _ _ _ _ _ _ => ⟨_, rfl⟩,
    vmRead_unconstrained_excludes_by_snapshotOf_and_domid insertionSortLessFunc
      insertionSortLessFunc_contract updateVMRecordData samplePool
      (fun _ _ _ _ _ _ => ⟨_, rfl⟩)⟩

/-- C16, as stated, fails.  The collection `driverPool` holds a driver domain (a
control domain with `Domid = 7`) and a snapshot whose `SnapshotOf` is the null
reference; `Read` with no constraints projects both: `data_items` holds an item with
`is_control_domain = true` and an item with `is_a_snapshot = true`. -/
theorem vmRead_projects_driver_domain_and_orphan_snapshot :
    vmDriverDomain.IsControlDomain = true
    ∧ vmOrphanSnapshot.IsASnapshot = true
    ∧ (vmDataSource.Read (.ok driverPool) updateVMRecordData insertionSortLessFunc []
        (vmConfig none none) emptyReadResponse).State
      = some { UUID := .null, NameLabel := .null,
               DataItems := [itemOf vmDriverDomain, itemOf vmOrphanSnapshot] }
    ∧ (itemOf vmDriverDomain).IsControlDomain = true
    ∧ (itemOf vmOrphanSnapshot).IsASnapshot = true := by
  refine ⟨rfl, rfl, by decide, rfl, rfl⟩

end xenserver
